import Mathlib

/-!
Verification development for a small tic-tac-toe game engine
(source: src/tictactoe.js).

The engine keeps a registry of games keyed by integer game identifiers.
JavaScript numbers are modelled by the rationals, except that game
identifiers and board coordinates, which are integers in every execution
the claims speak about, are modelled by the integers.  A JavaScript
TypeError (the source dereferences an absent registry entry) is modelled
by the error case of Except.  The inputs Date.now() and Math.random()
are passed explicitly as parameters.
-/

/-- Result code, source line 4. -/
def GAME_DOESNT_EXIST : ℚ := -2

/-- Result code, source line 5. -/
def GAME_NOT_STARTED : ℚ := -3

/-- Result code, source line 6. -/
def GAME_ENDED : ℚ := -4

/-- Result code, source line 7. -/
def GAME_ONGOING : ℚ := -5

/-- Result code, source line 8. -/
def PLAYER_DOESNT_EXIST : ℚ := -6

/-- Result code, source line 9. -/
def WRONG_TURN : ℚ := -7

/-- Result code, source line 10. -/
def INVALID_LOCATION : ℚ := -8

/-- A 3x3 board.  Cell (i, j) is row i (the JavaScript boardY) and
column j (the JavaScript boardX); an empty cell (null in the source)
is none. -/
abbrev Board := Fin 3 → Fin 3 → Option ℚ

/-- One game object, source lines 21-24.  The source field players is an
array of two entries, modelled as the fields players0 and players1; the
unassigned sentinel is -1.  activePlayer is 0 until the first move. -/
structure Game where
  players0 : ℚ
  players1 : ℚ
  board : Board
  activePlayer : ℚ
  isEnded : Bool

/-- The games registry (source line 12): an association list keyed by
game identifier, in insertion order, with one entry per key. -/
abbrev Games := List (ℤ × Game)

/-- Reading games at a key: the value at the first matching key. -/
def findGame : Games → ℤ → Option Game
  | [], _ => none
  | (k, g) :: rest, gid => if k = gid then some g else findGame rest gid

/-- Writing games at a key: replace the value at an existing key in
place, or append a new entry, as JavaScript object assignment does. -/
def putGame : Games → ℤ → Game → Games
  | [], gid, g => [(gid, g)]
  | (k, old) :: rest, gid, g =>
      if k = gid then (k, g) :: rest else (k, old) :: putGame rest gid g

/-- The fresh game installed by createGame, source lines 21-24. -/
def initGame : Game :=
  { players0 := -1, players1 := -1, board := fun _ _ => none,
    activePlayer := 0, isEnded := false }

/-- createGame, source lines 19-26.  now models Date.now() and rand
models Math.random(); the identifier is floor(now * rand).  Returns the
identifier and the updated registry. -/
def createGame (gs : Games) (now : ℤ) (rand : ℚ) : ℤ × Games :=
  (⌊(now : ℚ) * rand⌋, putGame gs ⌊(now : ℚ) * rand⌋ initGame)

/-- The active player used by the turn check of makeMove, source lines
100-102: when activePlayer is still 0 it is first set to players0. -/
def effectiveActive (g : Game) : ℚ :=
  if g.activePlayer = 0 then g.players0 else g.activePlayer

/-- The player the turn passes to after a move by pid, source lines
113-114. -/
def otherPlayer (g : Game) (pid : ℚ) : ℚ :=
  if g.players0 = pid then g.players1 else g.players0

/-- Conversion of an in-range coordinate to an index.  Every call site
has already established 0 <= n <= 2, where the conversion is exact. -/
def fin3 (n : ℤ) : Fin 3 := ⟨n.toNat % 3, Nat.mod_lt _ (by norm_num)⟩

/-- Writing a cell of the board, source line 112: row y (boardY),
column x (boardX). -/
def updateBoard (bd : Board) (y x : Fin 3) (p : ℚ) : Board :=
  fun i j => if i = y ∧ j = x then some p else bd i j

/-- The matrix built by the win check, source lines 130-138: each empty
cell is replaced by its running counter 3 * i + j + 1. -/
def winMatrix (bd : Board) : Fin 3 → Fin 3 → ℚ :=
  fun i j =>
    match bd i j with
    | some v => v
    | none => ((3 * (i : ℕ) + (j : ℕ) + 1 : ℕ) : ℚ)

/-- The win check, source lines 129-151 (function with the source name
starting with an underscore followed by isPlayerWin): the loop over i
checks row i and column i, then the two diagonals. -/
def isPlayerWin (playerID : ℚ) (bd : Board) : Bool :=
  decide ((winMatrix bd 0 0 = winMatrix bd 0 1 ∧ winMatrix bd 0 1 = winMatrix bd 0 2 ∧
             winMatrix bd 0 2 = playerID)
    ∨ (winMatrix bd 0 0 = winMatrix bd 1 0 ∧ winMatrix bd 1 0 = winMatrix bd 2 0 ∧
             winMatrix bd 2 0 = playerID)
    ∨ (winMatrix bd 1 0 = winMatrix bd 1 1 ∧ winMatrix bd 1 1 = winMatrix bd 1 2 ∧
             winMatrix bd 1 2 = playerID)
    ∨ (winMatrix bd 0 1 = winMatrix bd 1 1 ∧ winMatrix bd 1 1 = winMatrix bd 2 1 ∧
             winMatrix bd 2 1 = playerID)
    ∨ (winMatrix bd 2 0 = winMatrix bd 2 1 ∧ winMatrix bd 2 1 = winMatrix bd 2 2 ∧
             winMatrix bd 2 2 = playerID)
    ∨ (winMatrix bd 0 2 = winMatrix bd 1 2 ∧ winMatrix bd 1 2 = winMatrix bd 2 2 ∧
             winMatrix bd 2 2 = playerID)
    ∨ (winMatrix bd 0 0 = winMatrix bd 1 1 ∧ winMatrix bd 1 1 = winMatrix bd 2 2 ∧
             winMatrix bd 2 2 = playerID)
    ∨ (winMatrix bd 0 2 = winMatrix bd 1 1 ∧ winMatrix bd 1 1 = winMatrix bd 2 0 ∧
             winMatrix bd 2 0 = playerID))

/-- The draw check, source lines 153-155: every cell of every row is
occupied. -/
def isDraw (bd : Board) : Bool :=
  decide (∀ i j : Fin 3, (bd i j).isSome = true)

/-- addPlayer, source lines 38-59.  rand models the Math.random() call
of line 51.  The source dereferences the registry entry without an
existence check (line 43), so a registry-absent identifier that passes
the gameId < 201 test throws: modelled by the error case. -/
def addPlayer (gs : Games) (gameId : ℤ) (rand : ℚ) : Except Unit (ℚ × Games) :=
  if gameId < 201 then .ok (GAME_DOESNT_EXIST, gs)
  else
    match findGame gs gameId with
    | none => .error ()
    | some g =>
      if g.isEnded = true then .ok (GAME_ENDED, gs)
      else if 0 < g.players0 ∧ 0 < g.players1 then .ok (GAME_ONGOING, gs)
      else if g.players0 ≤ 0 then
        .ok ((gameId : ℚ) + rand, putGame gs gameId { g with players0 := (gameId : ℚ) + rand })
      else
        .ok ((gameId : ℚ) + rand, putGame gs gameId { g with players1 := (gameId : ℚ) + rand })

/-- makeMove, source lines 80-127.  The same registry dereference
without an existence check occurs at line 85; the lazy assignment of
activePlayer (lines 100-102) is folded into the state carried by the
two error returns it can precede (lines 104-110), and the successful
path performs one net registry write combining lines 112-124. -/
def makeMove (gs : Games) (gameId : ℤ) (playerId : ℚ) (boardX boardY : ℤ) :
    Except Unit (ℚ × Games) :=
  if gameId < 201 then .ok (GAME_DOESNT_EXIST, gs)
  else
    match findGame gs gameId with
    | none => .error ()
    | some g =>
      if g.isEnded = true then .ok (GAME_ENDED, gs)
      else if g.players0 ≤ 0 ∨ g.players1 ≤ 0 then .ok (GAME_NOT_STARTED, gs)
      else if ¬(playerId = g.players0 ∨ playerId = g.players1) then
        .ok (PLAYER_DOESNT_EXIST, gs)
      else if boardX < 0 ∨ 2 < boardX ∨ boardY < 0 ∨ 2 < boardY then
        .ok (INVALID_LOCATION, gs)
      else if ¬(playerId = effectiveActive g) then
        .ok (WRONG_TURN, putGame gs gameId { g with activePlayer := effectiveActive g })
      else if (g.board (fin3 boardY) (fin3 boardX)).isSome = true then
        .ok (INVALID_LOCATION, putGame gs gameId { g with activePlayer := effectiveActive g })
      else if isPlayerWin playerId (updateBoard g.board (fin3 boardY) (fin3 boardX) playerId) = true then
        .ok (playerId,
          putGame gs gameId
            { g with board := updateBoard g.board (fin3 boardY) (fin3 boardX) playerId,
                     activePlayer := otherPlayer g playerId, isEnded := true })
      else if isDraw (updateBoard g.board (fin3 boardY) (fin3 boardX) playerId) = true then
        .ok (otherPlayer g playerId,
          putGame gs gameId
            { g with board := updateBoard g.board (fin3 boardY) (fin3 boardX) playerId,
                     activePlayer := otherPlayer g playerId, isEnded := true })
      else
        .ok (GAME_ONGOING,
          putGame gs gameId
            { g with board := updateBoard g.board (fin3 boardY) (fin3 boardX) playerId,
                     activePlayer := otherPlayer g playerId })

/-- The registry after an addPlayer call; a thrown call (which aborts
before any write) leaves the registry as it was. -/
def addState (gs : Games) (gid : ℤ) (rand : ℚ) : Games :=
  match addPlayer gs gid rand with
  | .ok (_, gs') => gs'
  | .error _ => gs

/-- The registry after a makeMove call; a thrown call (which aborts
before any write) leaves the registry as it was. -/
def moveState (gs : Games) (gid : ℤ) (pid : ℚ) (x y : ℤ) : Games :=
  match makeMove gs gid pid x y with
  | .ok (_, gs') => gs'
  | .error _ => gs

/-- The value returned by a makeMove call (without the state). -/
def mmResult (gs : Games) (gid : ℤ) (pid : ℚ) (x y : ℤ) : Except Unit ℚ :=
  (makeMove gs gid pid x y).map Prod.fst

/-- The value returned by an addPlayer call (without the state). -/
def apResult (gs : Games) (gid : ℤ) (rand : ℚ) : Except Unit ℚ :=
  (addPlayer gs gid rand).map Prod.fst

/-- The game stored at an identifier (defaulting to initGame, only used
under a proof or computation showing the entry exists). -/
def gameAt (gs : Games) (gid : ℤ) : Game := (findGame gs gid).getD initGame

/-- The ended flag of the game stored at an identifier. -/
def endedAt (gs : Games) (gid : ℤ) : Bool := (gameAt gs gid).isEnded

/-- The activePlayer field of the game stored at an identifier. -/
def activePlayerAt (gs : Games) (gid : ℤ) : ℚ := (gameAt gs gid).activePlayer

/-- Win condition in the words of the specification: the player
occupies all three cells of one of the 3 rows, 3 columns or 2
diagonals of the board. -/
def specWin (p : ℚ) (bd : Board) : Prop :=
  (bd 0 0 = some p ∧ bd 0 1 = some p ∧ bd 0 2 = some p)
  ∨ (bd 1 0 = some p ∧ bd 1 1 = some p ∧ bd 1 2 = some p)
  ∨ (bd 2 0 = some p ∧ bd 2 1 = some p ∧ bd 2 2 = some p)
  ∨ (bd 0 0 = some p ∧ bd 1 0 = some p ∧ bd 2 0 = some p)
  ∨ (bd 0 1 = some p ∧ bd 1 1 = some p ∧ bd 2 1 = some p)
  ∨ (bd 0 2 = some p ∧ bd 1 2 = some p ∧ bd 2 2 = some p)
  ∨ (bd 0 0 = some p ∧ bd 1 1 = some p ∧ bd 2 2 = some p)
  ∨ (bd 0 2 = some p ∧ bd 1 1 = some p ∧ bd 2 0 = some p)

instance (p : ℚ) (bd : Board) : Decidable (specWin p bd) :=
  inferInstanceAs (Decidable
    ((bd 0 0 = some p ∧ bd 0 1 = some p ∧ bd 0 2 = some p)
    ∨ (bd 1 0 = some p ∧ bd 1 1 = some p ∧ bd 1 2 = some p)
    ∨ (bd 2 0 = some p ∧ bd 2 1 = some p ∧ bd 2 2 = some p)
    ∨ (bd 0 0 = some p ∧ bd 1 0 = some p ∧ bd 2 0 = some p)
    ∨ (bd 0 1 = some p ∧ bd 1 1 = some p ∧ bd 2 1 = some p)
    ∨ (bd 0 2 = some p ∧ bd 1 2 = some p ∧ bd 2 2 = some p)
    ∨ (bd 0 0 = some p ∧ bd 1 1 = some p ∧ bd 2 2 = some p)
    ∨ (bd 0 2 = some p ∧ bd 1 1 = some p ∧ bd 2 0 = some p)))

/-! ## Registry lemmas -/

lemma findGame_putGame (gs : Games) (gid : ℤ) (g : Game) (gid' : ℤ) :
    findGame (putGame gs gid g) gid' = if gid' = gid then some g else findGame gs gid' := by
  induction gs with
  | nil =>
    simp only [putGame, findGame]
    by_cases h : gid' = gid
    · rw [if_pos h.symm, if_pos h]
    · rw [if_neg (fun h' => h h'.symm), if_neg h]
  | cons hd tl ih =>
    obtain ⟨k, old⟩ := hd
    simp only [putGame]
    by_cases hk : k = gid
    · subst hk
      rw [if_pos rfl]
      simp only [findGame]
      by_cases h : k = gid'
      · rw [if_pos h, if_pos h.symm]
      · rw [if_neg h, if_neg h, if_neg (fun h' => h h'.symm)]
    · rw [if_neg hk]
      simp only [findGame]
      by_cases h : k = gid'
      · have hgg : ¬ gid' = gid := fun h' => hk (h.trans h')
        rw [if_pos h, if_neg hgg, if_pos h]
      · rw [if_neg h, if_neg h, ih]

lemma mem_putGame {p : ℤ × Game} {gs : Games} {gid : ℤ} {g : Game}
    (hp : p ∈ putGame gs gid g) : p ∈ gs ∨ p = (gid, g) := by
  induction gs with
  | nil => simp [putGame] at hp; simp [hp]
  | cons hd tl ih =>
    obtain ⟨k, old⟩ := hd
    by_cases hk : k = gid
    · subst hk
      simp only [putGame, if_pos rfl] at hp
      rcases List.mem_cons.mp hp with h | h
      · right; exact h
      · left; exact List.mem_cons_of_mem _ h
    · simp only [putGame, if_neg hk] at hp
      rcases List.mem_cons.mp hp with h | h
      · left; simp [h]
      · rcases ih h with h' | h'
        · left; exact List.mem_cons_of_mem _ h'
        · right; exact h'

lemma find_mem {gs : Games} {gid : ℤ} {g : Game}
    (h : findGame gs gid = some g) : (gid, g) ∈ gs := by
  induction gs with
  | nil => simp [findGame] at h
  | cons hd tl ih =>
    obtain ⟨k, old⟩ := hd
    by_cases hk : k = gid
    · subst hk
      have h' : old = g := by simpa [findGame] using h
      subst h'
      exact List.mem_cons_self _ _
    · simp only [findGame, if_neg hk] at h
      exact List.mem_cons_of_mem _ (ih h)

lemma putGame_self {gs : Games} {gid : ℤ} {g : Game}
    (h : findGame gs gid = some g) : putGame gs gid g = gs := by
  induction gs with
  | nil => simp [findGame] at h
  | cons hd tl ih =>
    obtain ⟨k, old⟩ := hd
    by_cases hk : k = gid
    · subst hk
      have h' : old = g := by simpa [findGame] using h
      subst h'
      simp [putGame]
    · simp only [findGame, if_neg hk] at h
      simp [putGame, hk, ih h]

/-! ## Win and draw detection lemmas -/

lemma winMatrix_eq {p : ℚ} (hp : 9 < p) (bd : Board) (i j : Fin 3) :
    winMatrix bd i j = p ↔ bd i j = some p := by
  unfold winMatrix
  cases hbd : bd i j with
  | some v => simp
  | none =>
    simp only []
    constructor
    · intro h
      exfalso
      have hi : (i : ℕ) ≤ 2 := Nat.lt_succ_iff.mp i.isLt
      have hj : (j : ℕ) ≤ 2 := Nat.lt_succ_iff.mp j.isLt
      have hc : (3 * (i : ℕ) + (j : ℕ) + 1) ≤ 9 := by omega
      have hc2 : ((3 * (i : ℕ) + (j : ℕ) + 1 : ℕ) : ℚ) ≤ 9 := by exact_mod_cast hc
      rw [h] at hc2
      linarith
    · intro h
      exact absurd h (by simp)

lemma line3 {p u v w : ℚ} {U V W : Option ℚ}
    (hu : u = p ↔ U = some p) (hv : v = p ↔ V = some p) (hw : w = p ↔ W = some p) :
    (u = v ∧ v = w ∧ w = p) ↔ (U = some p ∧ V = some p ∧ W = some p) := by
  constructor
  · rintro ⟨h1, h2, h3⟩
    exact ⟨hu.mp (h1.trans (h2.trans h3)), hv.mp (h2.trans h3), hw.mp h3⟩
  · rintro ⟨h1, h2, h3⟩
    have hu2 := hu.mpr h1
    have hv2 := hv.mpr h2
    have hw2 := hw.mpr h3
    exact ⟨hu2.trans hv2.symm, hv2.trans hw2.symm, hw2⟩

lemma isPlayerWin_iff {p : ℚ} (hp : 9 < p) (bd : Board) :
    isPlayerWin p bd = true ↔ specWin p bd := by
  have h : ∀ i j : Fin 3, (winMatrix bd i j = p ↔ bd i j = some p) :=
    fun i j => winMatrix_eq hp bd i j
  rw [isPlayerWin, decide_eq_true_eq]
  rw [line3 (h 0 0) (h 0 1) (h 0 2), line3 (h 0 0) (h 1 0) (h 2 0),
      line3 (h 1 0) (h 1 1) (h 1 2), line3 (h 0 1) (h 1 1) (h 2 1),
      line3 (h 2 0) (h 2 1) (h 2 2), line3 (h 0 2) (h 1 2) (h 2 2),
      line3 (h 0 0) (h 1 1) (h 2 2), line3 (h 0 2) (h 1 1) (h 2 0)]
  unfold specWin
  constructor
  · rintro (h1|h1|h1|h1|h1|h1|h1|h1)
    · exact Or.inl h1
    · exact Or.inr (Or.inr (Or.inr (Or.inl h1)))
    · exact Or.inr (Or.inl h1)
    · exact Or.inr (Or.inr (Or.inr (Or.inr (Or.inl h1))))
    · exact Or.inr (Or.inr (Or.inl h1))
    · exact Or.inr (Or.inr (Or.inr (Or.inr (Or.inr (Or.inl h1)))))
    · exact Or.inr (Or.inr (Or.inr (Or.inr (Or.inr (Or.inr (Or.inl h1))))))
    · exact Or.inr (Or.inr (Or.inr (Or.inr (Or.inr (Or.inr (Or.inr h1))))))
  · rintro (h1|h1|h1|h1|h1|h1|h1|h1)
    · exact Or.inl h1
    · exact Or.inr (Or.inr (Or.inl h1))
    · exact Or.inr (Or.inr (Or.inr (Or.inr (Or.inl h1))))
    · exact Or.inr (Or.inl h1)
    · exact Or.inr (Or.inr (Or.inr (Or.inl h1)))
    · exact Or.inr (Or.inr (Or.inr (Or.inr (Or.inr (Or.inl h1)))))
    · exact Or.inr (Or.inr (Or.inr (Or.inr (Or.inr (Or.inr (Or.inl h1))))))
    · exact Or.inr (Or.inr (Or.inr (Or.inr (Or.inr (Or.inr (Or.inr h1))))))

lemma isDraw_iff (bd : Board) :
    isDraw bd = true ↔ ∀ i j : Fin 3, (bd i j).isSome = true := by
  rw [isDraw, decide_eq_true_eq]

/-! ## Branch equations for addPlayer and makeMove -/

section StepEquations

variable {gs : Games} {gid : ℤ} {g : Game} {pid : ℚ} {x y : ℤ} {r : ℚ}

lemma addPlayer_low (h1 : gid < 201) :
    addPlayer gs gid r = .ok (GAME_DOESNT_EXIST, gs) := by
  unfold addPlayer
  rw [if_pos h1]

lemma addPlayer_absent (h1 : ¬ gid < 201) (heq : findGame gs gid = none) :
    addPlayer gs gid r = .error () := by
  unfold addPlayer
  rw [if_neg h1]
  split
  · rfl
  · next g2 heq2 => rw [heq2] at heq; cases heq

lemma addPlayer_ended (h1 : ¬ gid < 201) (heq : findGame gs gid = some g)
    (h2 : g.isEnded = true) :
    addPlayer gs gid r = .ok (GAME_ENDED, gs) := by
  unfold addPlayer
  rw [if_neg h1]
  split
  · next heq2 => rw [heq2] at heq; cases heq
  · next g2 heq2 =>
      rw [heq2] at heq
      injection heq with heq3
      subst heq3
      rw [if_pos h2]

lemma addPlayer_full (h1 : ¬ gid < 201) (heq : findGame gs gid = some g)
    (h2 : ¬ g.isEnded = true) (h3 : 0 < g.players0 ∧ 0 < g.players1) :
    addPlayer gs gid r = .ok (GAME_ONGOING, gs) := by
  unfold addPlayer
  rw [if_neg h1]
  split
  · next heq2 => rw [heq2] at heq; cases heq
  · next g2 heq2 =>
      rw [heq2] at heq
      injection heq with heq3
      subst heq3
      rw [if_neg h2, if_pos h3]

lemma addPlayer_fill0 (h1 : ¬ gid < 201) (heq : findGame gs gid = some g)
    (h2 : ¬ g.isEnded = true) (h3 : ¬ (0 < g.players0 ∧ 0 < g.players1))
    (h4 : g.players0 ≤ 0) :
    addPlayer gs gid r =
      .ok ((gid : ℚ) + r, putGame gs gid { g with players0 := (gid : ℚ) + r }) := by
  unfold addPlayer
  rw [if_neg h1]
  split
  · next heq2 => rw [heq2] at heq; cases heq
  · next g2 heq2 =>
      rw [heq2] at heq
      injection heq with heq3
      subst heq3
      rw [if_neg h2, if_neg h3, if_pos h4]

lemma addPlayer_fill1 (h1 : ¬ gid < 201) (heq : findGame gs gid = some g)
    (h2 : ¬ g.isEnded = true) (h3 : ¬ (0 < g.players0 ∧ 0 < g.players1))
    (h4 : ¬ g.players0 ≤ 0) :
    addPlayer gs gid r =
      .ok ((gid : ℚ) + r, putGame gs gid { g with players1 := (gid : ℚ) + r }) := by
  unfold addPlayer
  rw [if_neg h1]
  split
  · next heq2 => rw [heq2] at heq; cases heq
  · next g2 heq2 =>
      rw [heq2] at heq
      injection heq with heq3
      subst heq3
      rw [if_neg h2, if_neg h3, if_neg h4]

lemma makeMove_low (h1 : gid < 201) :
    makeMove gs gid pid x y = .ok (GAME_DOESNT_EXIST, gs) := by
  unfold makeMove
  rw [if_pos h1]

lemma makeMove_absent (h1 : ¬ gid < 201) (heq : findGame gs gid = none) :
    makeMove gs gid pid x y = .error () := by
  unfold makeMove
  rw [if_neg h1]
  split
  · rfl
  · next g2 heq2 => rw [heq2] at heq; cases heq

lemma makeMove_ended (h1 : ¬ gid < 201) (heq : findGame gs gid = some g)
    (h2 : g.isEnded = true) :
    makeMove gs gid pid x y = .ok (GAME_ENDED, gs) := by
  unfold makeMove
  rw [if_neg h1]
  split
  · next heq2 => rw [heq2] at heq; cases heq
  · next g2 heq2 =>
      rw [heq2] at heq
      injection heq with heq3
      subst heq3
      rw [if_pos h2]

lemma makeMove_notStarted (h1 : ¬ gid < 201) (heq : findGame gs gid = some g)
    (h2 : ¬ g.isEnded = true) (h3 : g.players0 ≤ 0 ∨ g.players1 ≤ 0) :
    makeMove gs gid pid x y = .ok (GAME_NOT_STARTED, gs) := by
  unfold makeMove
  rw [if_neg h1]
  split
  · next heq2 => rw [heq2] at heq; cases heq
  · next g2 heq2 =>
      rw [heq2] at heq
      injection heq with heq3
      subst heq3
      rw [if_neg h2, if_pos h3]

lemma makeMove_noPlayer (h1 : ¬ gid < 201) (heq : findGame gs gid = some g)
    (h2 : ¬ g.isEnded = true) (h3 : ¬ (g.players0 ≤ 0 ∨ g.players1 ≤ 0))
    (h4 : ¬ (pid = g.players0 ∨ pid = g.players1)) :
    makeMove gs gid pid x y = .ok (PLAYER_DOESNT_EXIST, gs) := by
  unfold makeMove
  rw [if_neg h1]
  split
  · next heq2 => rw [heq2] at heq; cases heq
  · next g2 heq2 =>
      rw [heq2] at heq
      injection heq with heq3
      subst heq3
      rw [if_neg h2, if_neg h3, if_pos h4]

lemma makeMove_range (h1 : ¬ gid < 201) (heq : findGame gs gid = some g)
    (h2 : ¬ g.isEnded = true) (h3 : ¬ (g.players0 ≤ 0 ∨ g.players1 ≤ 0))
    (h4 : pid = g.players0 ∨ pid = g.players1)
    (h5 : x < 0 ∨ 2 < x ∨ y < 0 ∨ 2 < y) :
    makeMove gs gid pid x y = .ok (INVALID_LOCATION, gs) := by
  unfold makeMove
  rw [if_neg h1]
  split
  · next heq2 => rw [heq2] at heq; cases heq
  · next g2 heq2 =>
      rw [heq2] at heq
      injection heq with heq3
      subst heq3
      rw [if_neg h2, if_neg h3, if_neg (not_not_intro h4), if_pos h5]

lemma makeMove_wrongTurn (h1 : ¬ gid < 201) (heq : findGame gs gid = some g)
    (h2 : ¬ g.isEnded = true) (h3 : ¬ (g.players0 ≤ 0 ∨ g.players1 ≤ 0))
    (h4 : pid = g.players0 ∨ pid = g.players1)
    (h5 : ¬ (x < 0 ∨ 2 < x ∨ y < 0 ∨ 2 < y))
    (h6 : ¬ pid = effectiveActive g) :
    makeMove gs gid pid x y =
      .ok (WRONG_TURN, putGame gs gid { g with activePlayer := effectiveActive g }) := by
  unfold makeMove
  rw [if_neg h1]
  split
  · next heq2 => rw [heq2] at heq; cases heq
  · next g2 heq2 =>
      rw [heq2] at heq
      injection heq with heq3
      subst heq3
      rw [if_neg h2, if_neg h3, if_neg (not_not_intro h4), if_neg h5, if_pos h6]

lemma makeMove_occupied (h1 : ¬ gid < 201) (heq : findGame gs gid = some g)
    (h2 : ¬ g.isEnded = true) (h3 : ¬ (g.players0 ≤ 0 ∨ g.players1 ≤ 0))
    (h4 : pid = g.players0 ∨ pid = g.players1)
    (h5 : ¬ (x < 0 ∨ 2 < x ∨ y < 0 ∨ 2 < y))
    (h6 : pid = effectiveActive g)
    (h7 : (g.board (fin3 y) (fin3 x)).isSome = true) :
    makeMove gs gid pid x y =
      .ok (INVALID_LOCATION, putGame gs gid { g with activePlayer := effectiveActive g }) := by
  unfold makeMove
  rw [if_neg h1]
  split
  · next heq2 => rw [heq2] at heq; cases heq
  · next g2 heq2 =>
      rw [heq2] at heq
      injection heq with heq3
      subst heq3
      rw [if_neg h2, if_neg h3, if_neg (not_not_intro h4), if_neg h5,
          if_neg (not_not_intro h6), if_pos h7]

lemma makeMove_success (h1 : ¬ gid < 201) (heq : findGame gs gid = some g)
    (h2 : ¬ g.isEnded = true) (h3 : ¬ (g.players0 ≤ 0 ∨ g.players1 ≤ 0))
    (h4 : pid = g.players0 ∨ pid = g.players1)
    (h5 : ¬ (x < 0 ∨ 2 < x ∨ y < 0 ∨ 2 < y))
    (h6 : pid = effectiveActive g)
    (h7 : ¬ (g.board (fin3 y) (fin3 x)).isSome = true) :
    makeMove gs gid pid x y =
      (if isPlayerWin pid (updateBoard g.board (fin3 y) (fin3 x) pid) = true then
        .ok (pid, putGame gs gid
          { g with board := updateBoard g.board (fin3 y) (fin3 x) pid,
                   activePlayer := otherPlayer g pid, isEnded := true })
      else if isDraw (updateBoard g.board (fin3 y) (fin3 x) pid) = true then
        .ok (otherPlayer g pid, putGame gs gid
          { g with board := updateBoard g.board (fin3 y) (fin3 x) pid,
                   activePlayer := otherPlayer g pid, isEnded := true })
      else
        .ok (GAME_ONGOING, putGame gs gid
          { g with board := updateBoard g.board (fin3 y) (fin3 x) pid,
                   activePlayer := otherPlayer g pid })) := by
  unfold makeMove
  rw [if_neg h1]
  split
  · next heq2 => rw [heq2] at heq; cases heq
  · next g2 heq2 =>
      rw [heq2] at heq
      injection heq with heq3
      subst heq3
      rw [if_neg h2, if_neg h3, if_neg (not_not_intro h4), if_neg h5,
          if_neg (not_not_intro h6), if_neg h7]

end StepEquations

/-! ## Reachable registries and their invariant -/

inductive Reachable : Games → Prop where
  | init : Reachable []
  | create : ∀ {gs : Games} (now : ℤ) (r : ℚ), Reachable gs → 0 ≤ now → 0 ≤ r → r < 1 →
      Reachable (createGame gs now r).2
  | add : ∀ {gs : Games} (gid : ℤ) (r : ℚ), Reachable gs → 0 ≤ r → r < 1 →
      Reachable (addState gs gid r)
  | move : ∀ {gs : Games} (gid : ℤ) (pid : ℚ) (x y : ℤ), Reachable gs →
      Reachable (moveState gs gid pid x y)

def GoodEntry (gid : ℤ) (g : Game) : Prop :=
  (g.isEnded = true → 201 ≤ gid)
  ∧ (g.players0 = -1 ∨ 201 ≤ g.players0)
  ∧ (g.players1 = -1 ∨ 201 ≤ g.players1)
  ∧ (∀ i j : Fin 3,
      g.board i j = none
      ∨ (g.board i j = some g.players0 ∧ 201 ≤ g.players0)
      ∨ (g.board i j = some g.players1 ∧ 201 ≤ g.players1))

def RegInv (gs : Games) : Prop := ∀ p ∈ gs, GoodEntry p.1 p.2

lemma regInv_putGame {gs : Games} {gid : ℤ} {g : Game} (h : RegInv gs) (hg : GoodEntry gid g) :
    RegInv (putGame gs gid g) := by
  intro p hp
  rcases mem_putGame hp with hmem | hpe
  · exact h p hmem
  · rw [hpe]; exact hg

lemma regInv_nil : RegInv [] := by intro p hp; simp at hp

lemma goodEntry_init (gid : ℤ) : GoodEntry gid initGame := by
  refine ⟨?_, ?_, ?_, ?_⟩ <;> simp [initGame]

lemma regInv_createGame {gs : Games} (h : RegInv gs) (now : ℤ) (r : ℚ) :
    RegInv (createGame gs now r).2 :=
  regInv_putGame h (goodEntry_init _)

lemma cast201 {gid : ℤ} (h : ¬ gid < 201) {r : ℚ} (hr : 0 ≤ r) :
    (201 : ℚ) ≤ (gid : ℚ) + r := by
  have h1 : (201 : ℤ) ≤ gid := by omega
  have h2 : (201 : ℚ) ≤ (gid : ℚ) := by exact_mod_cast h1
  linarith

lemma regInv_addState {gs : Games} (h : RegInv gs) (gid : ℤ) {r : ℚ} (hr : 0 ≤ r) :
    RegInv (addState gs gid r) := by
  by_cases h1 : gid < 201
  · rw [addState, addPlayer_low h1]; exact h
  · cases heq : findGame gs gid with
    | none => rw [addState, addPlayer_absent h1 heq]; exact h
    | some g =>
      have hold : GoodEntry gid g := h (gid, g) (find_mem heq)
      by_cases h2 : g.isEnded = true
      · rw [addState, addPlayer_ended h1 heq h2]; exact h
      · by_cases h3 : 0 < g.players0 ∧ 0 < g.players1
        · rw [addState, addPlayer_full h1 heq h2 h3]; exact h
        · by_cases h4 : g.players0 ≤ 0
          · rw [addState, addPlayer_fill0 h1 heq h2 h3 h4]
            refine regInv_putGame h ⟨?_, ?_, ?_, ?_⟩
            · intro he; omega
            · right; exact cast201 h1 hr
            · exact hold.2.2.1
            · intro i j
              rcases hold.2.2.2 i j with hc | hc | hc
              · left; exact hc
              · exfalso; linarith [hc.2]
              · right; right; exact hc
          · rw [addState, addPlayer_fill1 h1 heq h2 h3 h4]
            refine regInv_putGame h ⟨?_, ?_, ?_, ?_⟩
            · intro he; omega
            · exact hold.2.1
            · right; exact cast201 h1 hr
            · intro i j
              have hq1 : g.players1 ≤ 0 := by
                by_contra hc
                exact h3 ⟨by linarith [not_le.mp h4], by linarith⟩
              rcases hold.2.2.2 i j with hc | hc | hc
              · left; exact hc
              · right; left; exact hc
              · exfalso; linarith [hc.2]

lemma regInv_moveState {gs : Games} (h : RegInv gs) (gid : ℤ) (pid : ℚ) (x y : ℤ) :
    RegInv (moveState gs gid pid x y) := by
  by_cases h1 : gid < 201
  · rw [moveState, makeMove_low h1]; exact h
  · cases heq : findGame gs gid with
    | none => rw [moveState, makeMove_absent h1 heq]; exact h
    | some g =>
      have hold : GoodEntry gid g := h (gid, g) (find_mem heq)
      by_cases h2 : g.isEnded = true
      · rw [moveState, makeMove_ended h1 heq h2]; exact h
      · by_cases h3 : g.players0 ≤ 0 ∨ g.players1 ≤ 0
        · rw [moveState, makeMove_notStarted h1 heq h2 h3]; exact h
        · have h3n := h3
          push_neg at h3n
          have hp0 : 201 ≤ g.players0 := by
            rcases hold.2.1 with hc | hc
            · exfalso; rw [hc] at h3n; linarith [h3n.1]
            · exact hc
          have hp1 : 201 ≤ g.players1 := by
            rcases hold.2.2.1 with hc | hc
            · exfalso; rw [hc] at h3n; linarith [h3n.2]
            · exact hc
          by_cases h4 : pid = g.players0 ∨ pid = g.players1
          · by_cases h5 : x < 0 ∨ 2 < x ∨ y < 0 ∨ 2 < y
            · rw [moveState, makeMove_range h1 heq h2 h3 h4 h5]; exact h
            · have hlazy : GoodEntry gid { g with activePlayer := effectiveActive g } :=
                ⟨fun _ => by omega, hold.2.1, hold.2.2.1, hold.2.2.2⟩
              by_cases h6 : pid = effectiveActive g
              · by_cases h7 : (g.board (fin3 y) (fin3 x)).isSome = true
                · rw [moveState, makeMove_occupied h1 heq h2 h3 h4 h5 h6 h7]
                  exact regInv_putGame h hlazy
                · rw [moveState, makeMove_success h1 heq h2 h3 h4 h5 h6 h7]
                  have hboard : ∀ i j : Fin 3,
                      updateBoard g.board (fin3 y) (fin3 x) pid i j = none
                      ∨ (updateBoard g.board (fin3 y) (fin3 x) pid i j = some g.players0 ∧
                          201 ≤ g.players0)
                      ∨ (updateBoard g.board (fin3 y) (fin3 x) pid i j = some g.players1 ∧
                          201 ≤ g.players1) := by
                    intro i j
                    unfold updateBoard
                    by_cases hij : i = fin3 y ∧ j = fin3 x
                    · rw [if_pos hij]
                      rcases h4 with hc | hc
                      · right; left; exact ⟨by rw [hc], hp0⟩
                      · right; right; exact ⟨by rw [hc], hp1⟩
                    · rw [if_neg hij]; exact hold.2.2.2 i j
                  have hgood : ∀ b : Bool, GoodEntry gid
                      { g with board := updateBoard g.board (fin3 y) (fin3 x) pid,
                               activePlayer := otherPlayer g pid, isEnded := b } :=
                    fun b => ⟨fun _ => by omega, hold.2.1, hold.2.2.1, hboard⟩
                  by_cases h8 : isPlayerWin pid (updateBoard g.board (fin3 y) (fin3 x) pid) = true
                  · rw [if_pos h8]; exact regInv_putGame h (hgood true)
                  · rw [if_neg h8]
                    by_cases h9 : isDraw (updateBoard g.board (fin3 y) (fin3 x) pid) = true
                    · rw [if_pos h9]; exact regInv_putGame h (hgood true)
                    · rw [if_neg h9]; exact regInv_putGame h (hgood g.isEnded)
              · rw [moveState, makeMove_wrongTurn h1 heq h2 h3 h4 h5 h6]
                exact regInv_putGame h hlazy
          · rw [moveState, makeMove_noPlayer h1 heq h2 h3 h4]; exact h

lemma reachable_regInv {gs : Games} (h : Reachable gs) : RegInv gs := by
  induction h with
  | init => exact regInv_nil
  | create now r _ _ hr0 hr1 ih => exact regInv_createGame ih now r
  | add gid r _ hr0 hr1 ih => exact regInv_addState ih gid hr0
  | move gid pid x y _ ih => exact regInv_moveState ih gid pid x y

/-! ## Other registry keys are untouched -/

lemma addState_find_other {gs : Games} {gid' : ℤ} {r : ℚ} {gid : ℤ} (hne : gid ≠ gid') :
    findGame (addState gs gid' r) gid = findGame gs gid := by
  by_cases h1 : gid' < 201
  · rw [addState, addPlayer_low h1]
  · cases heq : findGame gs gid' with
    | none => rw [addState, addPlayer_absent h1 heq]
    | some g =>
      by_cases h2 : g.isEnded = true
      · rw [addState, addPlayer_ended h1 heq h2]
      · by_cases h3 : 0 < g.players0 ∧ 0 < g.players1
        · rw [addState, addPlayer_full h1 heq h2 h3]
        · by_cases h4 : g.players0 ≤ 0
          · rw [addState, addPlayer_fill0 h1 heq h2 h3 h4]
            show findGame (putGame gs gid' _) gid = findGame gs gid
            rw [findGame_putGame, if_neg hne]
          · rw [addState, addPlayer_fill1 h1 heq h2 h3 h4]
            show findGame (putGame gs gid' _) gid = findGame gs gid
            rw [findGame_putGame, if_neg hne]

lemma moveState_find_other {gs : Games} {gid' : ℤ} {pid : ℚ} {x y : ℤ} {gid : ℤ}
    (hne : gid ≠ gid') :
    findGame (moveState gs gid' pid x y) gid = findGame gs gid := by
  by_cases h1 : gid' < 201
  · rw [moveState, makeMove_low h1]
  · cases heq : findGame gs gid' with
    | none => rw [moveState, makeMove_absent h1 heq]
    | some g =>
      by_cases h2 : g.isEnded = true
      · rw [moveState, makeMove_ended h1 heq h2]
      · by_cases h3 : g.players0 ≤ 0 ∨ g.players1 ≤ 0
        · rw [moveState, makeMove_notStarted h1 heq h2 h3]
        · by_cases h4 : pid = g.players0 ∨ pid = g.players1
          · by_cases h5 : x < 0 ∨ 2 < x ∨ y < 0 ∨ 2 < y
            · rw [moveState, makeMove_range h1 heq h2 h3 h4 h5]
            · by_cases h6 : pid = effectiveActive g
              · by_cases h7 : (g.board (fin3 y) (fin3 x)).isSome = true
                · rw [moveState, makeMove_occupied h1 heq h2 h3 h4 h5 h6 h7]
                  show findGame (putGame gs gid' _) gid = findGame gs gid
                  rw [findGame_putGame, if_neg hne]
                · rw [moveState, makeMove_success h1 heq h2 h3 h4 h5 h6 h7]
                  by_cases h8 : isPlayerWin pid (updateBoard g.board (fin3 y) (fin3 x) pid) = true
                  · rw [if_pos h8]
                    show findGame (putGame gs gid' _) gid = findGame gs gid
                    rw [findGame_putGame, if_neg hne]
                  · rw [if_neg h8]
                    by_cases h9 : isDraw (updateBoard g.board (fin3 y) (fin3 x) pid) = true
                    · rw [if_pos h9]
                      show findGame (putGame gs gid' _) gid = findGame gs gid
                      rw [findGame_putGame, if_neg hne]
                    · rw [if_neg h9]
                      show findGame (putGame gs gid' _) gid = findGame gs gid
                      rw [findGame_putGame, if_neg hne]
              · rw [moveState, makeMove_wrongTurn h1 heq h2 h3 h4 h5 h6]
                show findGame (putGame gs gid' _) gid = findGame gs gid
                rw [findGame_putGame, if_neg hne]
          · rw [moveState, makeMove_noPlayer h1 heq h2 h3 h4]

/-! ## A concrete run: game 300, two players, a five-move win -/

namespace Scenario

/-- First player of game 300 (random draw 1/4). -/
def pA : ℚ := ((300 : ℤ) : ℚ) + 1/4

/-- Second player of game 300 (random draw 1/2). -/
def pB : ℚ := ((300 : ℤ) : ℚ) + 1/2

/-- Game 300 after the first player joined. -/
def gA : Game := { initGame with players0 := pA }

/-- Game 300 after both players joined. -/
def gAB : Game := { initGame with players0 := pA, players1 := pB }

/-- Game 300 after move 1: pA plays x = 0, y = 0. -/
def gM1 : Game :=
  { gAB with board := updateBoard gAB.board (fin3 0) (fin3 0) pA, activePlayer := pB }

/-- Game 300 after move 2: pB plays x = 1, y = 0. -/
def gM2 : Game :=
  { gM1 with board := updateBoard gM1.board (fin3 0) (fin3 1) pB, activePlayer := pA }

/-- Game 300 after move 3: pA plays x = 0, y = 1. -/
def gM3 : Game :=
  { gM2 with board := updateBoard gM2.board (fin3 1) (fin3 0) pA, activePlayer := pB }

/-- Game 300 after move 4: pB plays x = 1, y = 1. -/
def gM4 : Game :=
  { gM3 with board := updateBoard gM3.board (fin3 1) (fin3 1) pB, activePlayer := pA }

/-- Game 300 after move 5: pA completes the left column and wins. -/
def gWin : Game :=
  { gM4 with board := updateBoard gM4.board (fin3 2) (fin3 0) pA, activePlayer := pB,
             isEnded := true }

lemma fin3_0 : fin3 0 = 0 := rfl

lemma fin3_1 : fin3 1 = 1 := rfl

lemma fin3_2 : fin3 2 = 2 := rfl

lemma findGame_single (g : Game) : findGame [((300:ℤ), g)] 300 = some g := by
  simp [findGame]

lemma win1 : isPlayerWin pA (updateBoard gAB.board (fin3 0) (fin3 0) pA) = false := by
  rw [isPlayerWin, decide_eq_false_iff_not]
  simp [winMatrix, updateBoard, fin3_0, fin3_1, fin3_2, gM4, gM3, gM2, gM1, gAB, initGame,
    show ¬((1:Fin 3) = 0) from by decide, show ¬((2:Fin 3) = 0) from by decide,
    show ¬((0:Fin 3) = 1) from by decide, show ¬((2:Fin 3) = 1) from by decide,
    show ¬((0:Fin 3) = 2) from by decide, show ¬((1:Fin 3) = 2) from by decide]

lemma draw1 : isDraw (updateBoard gAB.board (fin3 0) (fin3 0) pA) = false := by
  rw [isDraw, decide_eq_false_iff_not]
  intro h
  have h22 := h 2 2
  simp [updateBoard, fin3_0, fin3_1, fin3_2, gM4, gM3, gM2, gM1, gAB, initGame,
    show ¬((1:Fin 3) = 0) from by decide, show ¬((2:Fin 3) = 0) from by decide,
    show ¬((0:Fin 3) = 1) from by decide, show ¬((2:Fin 3) = 1) from by decide,
    show ¬((0:Fin 3) = 2) from by decide, show ¬((1:Fin 3) = 2) from by decide] at h22

lemma win2 : isPlayerWin pB (updateBoard gM1.board (fin3 0) (fin3 1) pB) = false := by
  rw [isPlayerWin, decide_eq_false_iff_not]
  simp [winMatrix, updateBoard, fin3_0, fin3_1, fin3_2, gM4, gM3, gM2, gM1, gAB, initGame,
    show ¬((1:Fin 3) = 0) from by decide, show ¬((2:Fin 3) = 0) from by decide,
    show ¬((0:Fin 3) = 1) from by decide, show ¬((2:Fin 3) = 1) from by decide,
    show ¬((0:Fin 3) = 2) from by decide, show ¬((1:Fin 3) = 2) from by decide]
  all_goals norm_num [pA, pB]

lemma draw2 : isDraw (updateBoard gM1.board (fin3 0) (fin3 1) pB) = false := by
  rw [isDraw, decide_eq_false_iff_not]
  intro h
  have h22 := h 2 2
  simp [updateBoard, fin3_0, fin3_1, fin3_2, gM4, gM3, gM2, gM1, gAB, initGame,
    show ¬((1:Fin 3) = 0) from by decide, show ¬((2:Fin 3) = 0) from by decide,
    show ¬((0:Fin 3) = 1) from by decide, show ¬((2:Fin 3) = 1) from by decide,
    show ¬((0:Fin 3) = 2) from by decide, show ¬((1:Fin 3) = 2) from by decide] at h22

lemma win3 : isPlayerWin pA (updateBoard gM2.board (fin3 1) (fin3 0) pA) = false := by
  rw [isPlayerWin, decide_eq_false_iff_not]
  simp [winMatrix, updateBoard, fin3_0, fin3_1, fin3_2, gM4, gM3, gM2, gM1, gAB, initGame,
    show ¬((1:Fin 3) = 0) from by decide, show ¬((2:Fin 3) = 0) from by decide,
    show ¬((0:Fin 3) = 1) from by decide, show ¬((2:Fin 3) = 1) from by decide,
    show ¬((0:Fin 3) = 2) from by decide, show ¬((1:Fin 3) = 2) from by decide]
  all_goals norm_num [pA, pB]

lemma draw3 : isDraw (updateBoard gM2.board (fin3 1) (fin3 0) pA) = false := by
  rw [isDraw, decide_eq_false_iff_not]
  intro h
  have h22 := h 2 2
  simp [updateBoard, fin3_0, fin3_1, fin3_2, gM4, gM3, gM2, gM1, gAB, initGame,
    show ¬((1:Fin 3) = 0) from by decide, show ¬((2:Fin 3) = 0) from by decide,
    show ¬((0:Fin 3) = 1) from by decide, show ¬((2:Fin 3) = 1) from by decide,
    show ¬((0:Fin 3) = 2) from by decide, show ¬((1:Fin 3) = 2) from by decide] at h22

lemma win4 : isPlayerWin pB (updateBoard gM3.board (fin3 1) (fin3 1) pB) = false := by
  rw [isPlayerWin, decide_eq_false_iff_not]
  simp [winMatrix, updateBoard, fin3_0, fin3_1, fin3_2, gM4, gM3, gM2, gM1, gAB, initGame,
    show ¬((1:Fin 3) = 0) from by decide, show ¬((2:Fin 3) = 0) from by decide,
    show ¬((0:Fin 3) = 1) from by decide, show ¬((2:Fin 3) = 1) from by decide,
    show ¬((0:Fin 3) = 2) from by decide, show ¬((1:Fin 3) = 2) from by decide]
  all_goals norm_num [pA, pB]

lemma draw4 : isDraw (updateBoard gM3.board (fin3 1) (fin3 1) pB) = false := by
  rw [isDraw, decide_eq_false_iff_not]
  intro h
  have h22 := h 2 2
  simp [updateBoard, fin3_0, fin3_1, fin3_2, gM4, gM3, gM2, gM1, gAB, initGame,
    show ¬((1:Fin 3) = 0) from by decide, show ¬((2:Fin 3) = 0) from by decide,
    show ¬((0:Fin 3) = 1) from by decide, show ¬((2:Fin 3) = 1) from by decide,
    show ¬((0:Fin 3) = 2) from by decide, show ¬((1:Fin 3) = 2) from by decide] at h22

lemma win5 : isPlayerWin pA (updateBoard gM4.board (fin3 2) (fin3 0) pA) = true := by
  rw [isPlayerWin, decide_eq_true_eq]
  refine Or.inr (Or.inl ⟨?_, ?_, ?_⟩) <;>
    simp [winMatrix, updateBoard, fin3_0, fin3_1, fin3_2, gM4, gM3, gM2, gM1, gAB, initGame,
    show ¬((1:Fin 3) = 0) from by decide, show ¬((2:Fin 3) = 0) from by decide,
    show ¬((0:Fin 3) = 1) from by decide, show ¬((2:Fin 3) = 1) from by decide,
    show ¬((0:Fin 3) = 2) from by decide, show ¬((1:Fin 3) = 2) from by decide]

lemma step1 : moveState [(300, gAB)] 300 pA 0 0 = [(300, gM1)] := by
  have h1 : ¬ (300:ℤ) < 201 := by decide
  have heq : findGame [((300:ℤ), gAB)] 300 = some gAB := findGame_single gAB
  have h2 : ¬ gAB.isEnded = true := by simp [gM4, gM3, gM2, gM1, gAB, initGame]
  have h3 : ¬ (gAB.players0 ≤ 0 ∨ gAB.players1 ≤ 0) := by
    norm_num [gM4, gM3, gM2, gM1, gAB, initGame, pA, pB]
  have h4 : pA = gAB.players0 ∨ pA = gAB.players1 :=
    Or.inl (by simp [gM4, gM3, gM2, gM1, gAB, initGame])
  have h5 : ¬ ((0:ℤ) < 0 ∨ 2 < (0:ℤ) ∨ (0:ℤ) < 0 ∨ 2 < (0:ℤ)) := by decide
  have h6 : pA = effectiveActive gAB := by
    norm_num [effectiveActive, gM4, gM3, gM2, gM1, gAB, initGame, pA, pB]
  have h7 : ¬ (gAB.board (fin3 0) (fin3 0)).isSome = true := by
    simp [updateBoard, fin3_0, fin3_1, fin3_2, gM4, gM3, gM2, gM1, gAB, initGame,
    show ¬((1:Fin 3) = 0) from by decide, show ¬((2:Fin 3) = 0) from by decide,
    show ¬((0:Fin 3) = 1) from by decide, show ¬((2:Fin 3) = 1) from by decide,
    show ¬((0:Fin 3) = 2) from by decide, show ¬((1:Fin 3) = 2) from by decide]
  rw [moveState, makeMove_success h1 heq h2 h3 h4 h5 h6 h7]
  rw [win1, if_neg Bool.false_ne_true, draw1, if_neg Bool.false_ne_true]
  norm_num [putGame, gM1, otherPlayer, gM4, gM3, gM2, gM1, gAB, initGame, pA, pB]

lemma step2 : moveState [(300, gM1)] 300 pB 1 0 = [(300, gM2)] := by
  have h1 : ¬ (300:ℤ) < 201 := by decide
  have heq : findGame [((300:ℤ), gM1)] 300 = some gM1 := findGame_single gM1
  have h2 : ¬ gM1.isEnded = true := by simp [gM4, gM3, gM2, gM1, gAB, initGame]
  have h3 : ¬ (gM1.players0 ≤ 0 ∨ gM1.players1 ≤ 0) := by
    norm_num [gM4, gM3, gM2, gM1, gAB, initGame, pA, pB]
  have h4 : pB = gM1.players0 ∨ pB = gM1.players1 :=
    Or.inr (by simp [gM4, gM3, gM2, gM1, gAB, initGame])
  have h5 : ¬ ((1:ℤ) < 0 ∨ 2 < (1:ℤ) ∨ (0:ℤ) < 0 ∨ 2 < (0:ℤ)) := by decide
  have h6 : pB = effectiveActive gM1 := by
    norm_num [effectiveActive, gM4, gM3, gM2, gM1, gAB, initGame, pA, pB]
  have h7 : ¬ (gM1.board (fin3 0) (fin3 1)).isSome = true := by
    simp [updateBoard, fin3_0, fin3_1, fin3_2, gM4, gM3, gM2, gM1, gAB, initGame,
    show ¬((1:Fin 3) = 0) from by decide, show ¬((2:Fin 3) = 0) from by decide,
    show ¬((0:Fin 3) = 1) from by decide, show ¬((2:Fin 3) = 1) from by decide,
    show ¬((0:Fin 3) = 2) from by decide, show ¬((1:Fin 3) = 2) from by decide]
  rw [moveState, makeMove_success h1 heq h2 h3 h4 h5 h6 h7]
  rw [win2, if_neg Bool.false_ne_true, draw2, if_neg Bool.false_ne_true]
  norm_num [putGame, gM2, otherPlayer, gM4, gM3, gM2, gM1, gAB, initGame, pA, pB]

lemma step3 : moveState [(300, gM2)] 300 pA 0 1 = [(300, gM3)] := by
  have h1 : ¬ (300:ℤ) < 201 := by decide
  have heq : findGame [((300:ℤ), gM2)] 300 = some gM2 := findGame_single gM2
  have h2 : ¬ gM2.isEnded = true := by simp [gM4, gM3, gM2, gM1, gAB, initGame]
  have h3 : ¬ (gM2.players0 ≤ 0 ∨ gM2.players1 ≤ 0) := by
    norm_num [gM4, gM3, gM2, gM1, gAB, initGame, pA, pB]
  have h4 : pA = gM2.players0 ∨ pA = gM2.players1 :=
    Or.inl (by simp [gM4, gM3, gM2, gM1, gAB, initGame])
  have h5 : ¬ ((0:ℤ) < 0 ∨ 2 < (0:ℤ) ∨ (1:ℤ) < 0 ∨ 2 < (1:ℤ)) := by decide
  have h6 : pA = effectiveActive gM2 := by
    norm_num [effectiveActive, gM4, gM3, gM2, gM1, gAB, initGame, pA, pB]
  have h7 : ¬ (gM2.board (fin3 1) (fin3 0)).isSome = true := by
    simp [updateBoard, fin3_0, fin3_1, fin3_2, gM4, gM3, gM2, gM1, gAB, initGame,
    show ¬((1:Fin 3) = 0) from by decide, show ¬((2:Fin 3) = 0) from by decide,
    show ¬((0:Fin 3) = 1) from by decide, show ¬((2:Fin 3) = 1) from by decide,
    show ¬((0:Fin 3) = 2) from by decide, show ¬((1:Fin 3) = 2) from by decide]
  rw [moveState, makeMove_success h1 heq h2 h3 h4 h5 h6 h7]
  rw [win3, if_neg Bool.false_ne_true, draw3, if_neg Bool.false_ne_true]
  norm_num [putGame, gM3, otherPlayer, gM4, gM3, gM2, gM1, gAB, initGame, pA, pB]

lemma step4 : moveState [(300, gM3)] 300 pB 1 1 = [(300, gM4)] := by
  have h1 : ¬ (300:ℤ) < 201 := by decide
  have heq : findGame [((300:ℤ), gM3)] 300 = some gM3 := findGame_single gM3
  have h2 : ¬ gM3.isEnded = true := by simp [gM4, gM3, gM2, gM1, gAB, initGame]
  have h3 : ¬ (gM3.players0 ≤ 0 ∨ gM3.players1 ≤ 0) := by
    norm_num [gM4, gM3, gM2, gM1, gAB, initGame, pA, pB]
  have h4 : pB = gM3.players0 ∨ pB = gM3.players1 :=
    Or.inr (by simp [gM4, gM3, gM2, gM1, gAB, initGame])
  have h5 : ¬ ((1:ℤ) < 0 ∨ 2 < (1:ℤ) ∨ (1:ℤ) < 0 ∨ 2 < (1:ℤ)) := by decide
  have h6 : pB = effectiveActive gM3 := by
    norm_num [effectiveActive, gM4, gM3, gM2, gM1, gAB, initGame, pA, pB]
  have h7 : ¬ (gM3.board (fin3 1) (fin3 1)).isSome = true := by
    simp [updateBoard, fin3_0, fin3_1, fin3_2, gM4, gM3, gM2, gM1, gAB, initGame,
    show ¬((1:Fin 3) = 0) from by decide, show ¬((2:Fin 3) = 0) from by decide,
    show ¬((0:Fin 3) = 1) from by decide, show ¬((2:Fin 3) = 1) from by decide,
    show ¬((0:Fin 3) = 2) from by decide, show ¬((1:Fin 3) = 2) from by decide]
  rw [moveState, makeMove_success h1 heq h2 h3 h4 h5 h6 h7]
  rw [win4, if_neg Bool.false_ne_true, draw4, if_neg Bool.false_ne_true]
  norm_num [putGame, gM4, otherPlayer, gM4, gM3, gM2, gM1, gAB, initGame, pA, pB]

lemma step5 : moveState [(300, gM4)] 300 pA 0 2 = [(300, gWin)] := by
  have h1 : ¬ (300:ℤ) < 201 := by decide
  have heq : findGame [((300:ℤ), gM4)] 300 = some gM4 := findGame_single gM4
  have h2 : ¬ gM4.isEnded = true := by simp [gM4, gM3, gM2, gM1, gAB, initGame]
  have h3 : ¬ (gM4.players0 ≤ 0 ∨ gM4.players1 ≤ 0) := by
    norm_num [gM4, gM3, gM2, gM1, gAB, initGame, pA, pB]
  have h4 : pA = gM4.players0 ∨ pA = gM4.players1 :=
    Or.inl (by simp [gM4, gM3, gM2, gM1, gAB, initGame])
  have h5 : ¬ ((0:ℤ) < 0 ∨ 2 < (0:ℤ) ∨ (2:ℤ) < 0 ∨ 2 < (2:ℤ)) := by decide
  have h6 : pA = effectiveActive gM4 := by
    norm_num [effectiveActive, gM4, gM3, gM2, gM1, gAB, initGame, pA, pB]
  have h7 : ¬ (gM4.board (fin3 2) (fin3 0)).isSome = true := by
    simp [updateBoard, fin3_0, fin3_1, fin3_2, gM4, gM3, gM2, gM1, gAB, initGame,
    show ¬((1:Fin 3) = 0) from by decide, show ¬((2:Fin 3) = 0) from by decide,
    show ¬((0:Fin 3) = 1) from by decide, show ¬((2:Fin 3) = 1) from by decide,
    show ¬((0:Fin 3) = 2) from by decide, show ¬((1:Fin 3) = 2) from by decide]
  rw [moveState, makeMove_success h1 heq h2 h3 h4 h5 h6 h7]
  rw [win5, if_pos rfl]
  norm_num [putGame, gWin, otherPlayer, gM4, gM3, gM2, gM1, gAB, initGame, pA, pB]

lemma gs1_eq : (createGame [] 600 (1/2)).2 = [(300, initGame)] := by
  have hf : (⌊((600:ℤ):ℚ) * (1/2)⌋ : ℤ) = 300 := by norm_num
  simp only [createGame, hf]
  rfl

lemma add1 : addState [(300, initGame)] 300 (1/4) = [(300, gA)] := by
  have h1 : ¬ (300:ℤ) < 201 := by decide
  have heq : findGame [((300:ℤ), initGame)] 300 = some initGame := findGame_single initGame
  have h2 : ¬ initGame.isEnded = true := by simp [initGame]
  have h3 : ¬ (0 < initGame.players0 ∧ 0 < initGame.players1) := by norm_num [initGame]
  have h4 : initGame.players0 ≤ 0 := by norm_num [initGame]
  rw [addState, addPlayer_fill0 h1 heq h2 h3 h4]
  norm_num [putGame, gA, initGame, pA]

lemma add2 : addState [(300, gA)] 300 (1/2) = [(300, gAB)] := by
  have h1 : ¬ (300:ℤ) < 201 := by decide
  have heq : findGame [((300:ℤ), gA)] 300 = some gA := findGame_single gA
  have h2 : ¬ gA.isEnded = true := by simp [gA, initGame]
  have h3 : ¬ (0 < gA.players0 ∧ 0 < gA.players1) := by norm_num [gA, initGame, pA]
  have h4 : ¬ gA.players0 ≤ 0 := by norm_num [gA, initGame, pA]
  rw [addState, addPlayer_fill1 h1 heq h2 h3 h4]
  norm_num [putGame, gAB, gA, initGame, pA, pB]

end Scenario

/-- Registry after creating game 300 (Date.now() = 600, Math.random() = 1/2). -/
def gs1 : Games := (createGame [] 600 (1/2)).2

/-- Registry after both players joined game 300. -/
def gs2 : Games := addState (addState gs1 300 (1/4)) 300 (1/2)

/-- Registry after the five-move win of the first player in game 300. -/
def gsW : Games :=
  moveState (moveState (moveState (moveState
    (moveState gs2 300 Scenario.pA 0 0) 300 Scenario.pB 1 0) 300 Scenario.pA 0 1)
    300 Scenario.pB 1 1) 300 Scenario.pA 0 2

lemma gs1_explicit : gs1 = [(300, initGame)] := Scenario.gs1_eq

lemma gs2_explicit : gs2 = [(300, Scenario.gAB)] := by
  rw [gs2, gs1_explicit, Scenario.add1, Scenario.add2]

lemma gsW_explicit : gsW = [(300, Scenario.gWin)] := by
  rw [gsW, gs2_explicit, Scenario.step1, Scenario.step2, Scenario.step3,
    Scenario.step4, Scenario.step5]

lemma reachable_gs1 : Reachable gs1 :=
  Reachable.create 600 (1/2) Reachable.init (by norm_num) (by norm_num) (by norm_num)

lemma reachable_gs2 : Reachable gs2 :=
  Reachable.add 300 (1/2)
    (Reachable.add 300 (1/4) reachable_gs1 (by norm_num) (by norm_num))
    (by norm_num) (by norm_num)

lemma reachable_gsW : Reachable gsW :=
  Reachable.move 300 Scenario.pA 0 2
    (Reachable.move 300 Scenario.pB 1 1
      (Reachable.move 300 Scenario.pA 0 1
        (Reachable.move 300 Scenario.pB 1 0
          (Reachable.move 300 Scenario.pA 0 0 reachable_gs2))))

/-! ## The claims -/

/-- Registry after creating a game with Date.now() = 1 and Math.random() = 1/2:
the new game receives identifier floor(1/2) = 0, below the 201 threshold. -/
def gsLow : Games := (createGame [] 1 (1/2)).2

lemma gsLow_explicit : gsLow = [(0, initGame)] := by
  have hf : (⌊((1:ℤ):ℚ) * (1/2)⌋ : ℤ) = 0 := by norm_num
  simp only [gsLow, createGame, hf]
  rfl

/-- C1: the claim that addPlayer and makeMove return GAME_DOESNT_EXIST on every
identifier never issued by createGame is the documented intent (source lines 35
and 72) but the code violates it: an unissued identifier that is at least 201
passes the gameId < 201 test and the registry entry is dereferenced without an
existence check, so the call throws a TypeError (here the error case) instead
of returning GAME_DOESNT_EXIST.  Negative identifiers do return
GAME_DOESNT_EXIST. -/
theorem c1_unissued_id_crashes :
    addPlayer [] 300 0 = .error ()
  ∧ makeMove [] 300 1 0 0 = .error ()
  ∧ addPlayer gs1 777 0 = .error ()
  ∧ addPlayer [] (-5) 0 = .ok (GAME_DOESNT_EXIST, [])
  ∧ makeMove [] (-5) 1 0 0 = .ok (GAME_DOESNT_EXIST, []) := by
  refine ⟨addPlayer_absent (by decide) rfl, makeMove_absent (by decide) rfl, ?_,
    addPlayer_low (by decide), makeMove_low (by decide)⟩
  refine addPlayer_absent (by decide) ?_
  rw [gs1_explicit]
  simp [findGame]

/-- C10: for every identifier below 201, addPlayer and makeMove return
GAME_DOESNT_EXIST with the registry untouched and never consulted (the result
is the same for every registry, including one that holds a game under that
identifier); createGame can issue such an identifier (with Date.now() = 1 and
Math.random() = 1/2 it issues 0), and the resulting game, although present in
the registry, is permanently unreachable. -/
theorem c10_low_ids_unreachable :
    (∀ (gs : Games) (gid : ℤ) (r pid : ℚ) (x y : ℤ), gid < 201 →
        addPlayer gs gid r = .ok (GAME_DOESNT_EXIST, gs)
      ∧ makeMove gs gid pid x y = .ok (GAME_DOESNT_EXIST, gs))
  ∧ (createGame [] 1 (1/2)).1 = 0
  ∧ findGame gsLow 0 = some initGame
  ∧ (∀ (r pid : ℚ) (x y : ℤ),
        addPlayer gsLow 0 r = .ok (GAME_DOESNT_EXIST, gsLow)
      ∧ makeMove gsLow 0 pid x y = .ok (GAME_DOESNT_EXIST, gsLow)) := by
  refine ⟨fun gs gid r pid x y h => ⟨addPlayer_low h, makeMove_low h⟩, ?_, ?_, ?_⟩
  · show (⌊((1:ℤ):ℚ) * (1/2)⌋ : ℤ) = 0
    norm_num
  · rw [gsLow_explicit]
    simp [findGame]
  · exact fun r pid x y => ⟨addPlayer_low (by decide), makeMove_low (by decide)⟩

/-- Witness for C10 at concrete inputs: identifier 5 on a nonempty registry and
identifier 0 on the registry that actually holds game 0. -/
theorem c10_low_ids_unreachable_witness :
    addPlayer gs1 5 (1/3) = .ok (GAME_DOESNT_EXIST, gs1)
  ∧ makeMove gsLow 0 1 0 0 = .ok (GAME_DOESNT_EXIST, gsLow) :=
  ⟨(c10_low_ids_unreachable.1 gs1 5 (1/3) 1 0 0 (by decide)).1,
   (c10_low_ids_unreachable.1 gsLow 0 (1/3) 1 0 0 (by decide)).2⟩

/-- C2 counterexample: on the registry-absent identifier 250 (unissued, hence a
game that does not exist) makeMove does not return GAME_DOESNT_EXIST as the
claim states for its first check; it throws (error case). -/
theorem c2_counterexample :
    mmResult [] 250 1 0 0 = .error ()
  ∧ mmResult [] 250 1 0 0 ≠ .ok GAME_DOESNT_EXIST := by
  have h : makeMove [] 250 1 0 0 = .error () := makeMove_absent (by decide) rfl
  rw [mmResult, h]
  exact ⟨rfl, by simp [Except.map]⟩

/-- C2 as amended: makeMove checks its preconditions in the claimed order with
first match winning, except that check (1) really is the test gameId < 201: a
registry-absent identifier at least 201 crashes instead of returning
GAME_DOESNT_EXIST.  For a game present in the registry under an identifier at
least 201 the chain is exactly: (2) ended, (3) a player slot empty, (4) caller
not seated, (5) coordinate out of range, (6) caller not the active player
(after the lazy fixing of the active player), (7) target cell occupied.  The
out-of-range clause carries no turn hypothesis, so when an out-of-range
coordinate and a wrong turn hold together the result is INVALID_LOCATION. -/
theorem c2_amended_order :
    (∀ (gs : Games) (gid : ℤ) (pid : ℚ) (x y : ℤ), gid < 201 →
        mmResult gs gid pid x y = .ok GAME_DOESNT_EXIST)
  ∧ (∀ (gs : Games) (gid : ℤ) (pid : ℚ) (x y : ℤ), 201 ≤ gid → findGame gs gid = none →
        mmResult gs gid pid x y = .error ())
  ∧ (∀ (gs : Games) (gid : ℤ) (g : Game) (pid : ℚ) (x y : ℤ),
        201 ≤ gid → findGame gs gid = some g →
        (g.isEnded = true → mmResult gs gid pid x y = .ok GAME_ENDED)
      ∧ (g.isEnded = false → (g.players0 ≤ 0 ∨ g.players1 ≤ 0) →
          mmResult gs gid pid x y = .ok GAME_NOT_STARTED)
      ∧ (g.isEnded = false → ¬(g.players0 ≤ 0 ∨ g.players1 ≤ 0) →
          ¬(pid = g.players0 ∨ pid = g.players1) →
          mmResult gs gid pid x y = .ok PLAYER_DOESNT_EXIST)
      ∧ (g.isEnded = false → ¬(g.players0 ≤ 0 ∨ g.players1 ≤ 0) →
          (pid = g.players0 ∨ pid = g.players1) →
          (x < 0 ∨ 2 < x ∨ y < 0 ∨ 2 < y) →
          mmResult gs gid pid x y = .ok INVALID_LOCATION)
      ∧ (g.isEnded = false → ¬(g.players0 ≤ 0 ∨ g.players1 ≤ 0) →
          (pid = g.players0 ∨ pid = g.players1) →
          ¬(x < 0 ∨ 2 < x ∨ y < 0 ∨ 2 < y) →
          ¬(pid = effectiveActive g) →
          mmResult gs gid pid x y = .ok WRONG_TURN)
      ∧ (g.isEnded = false → ¬(g.players0 ≤ 0 ∨ g.players1 ≤ 0) →
          (pid = g.players0 ∨ pid = g.players1) →
          ¬(x < 0 ∨ 2 < x ∨ y < 0 ∨ 2 < y) →
          pid = effectiveActive g →
          (g.board (fin3 y) (fin3 x)).isSome = true →
          mmResult gs gid pid x y = .ok INVALID_LOCATION)) := by
  refine ⟨fun gs gid pid x y h => by rw [mmResult, makeMove_low h]; rfl,
    fun gs gid pid x y h hn => by rw [mmResult, makeMove_absent (by omega) hn]; rfl,
    fun gs gid g pid x y h201 hfind => ?_⟩
  have h1 : ¬ gid < 201 := by omega
  refine ⟨fun he => by rw [mmResult, makeMove_ended h1 hfind he]; rfl,
    fun he hs => by rw [mmResult, makeMove_notStarted h1 hfind (by simp [he]) hs]; rfl,
    fun he hs hp => by rw [mmResult, makeMove_noPlayer h1 hfind (by simp [he]) hs hp]; rfl,
    fun he hs hp hr => by rw [mmResult, makeMove_range h1 hfind (by simp [he]) hs hp hr]; rfl,
    fun he hs hp hr ht => by
      rw [mmResult, makeMove_wrongTurn h1 hfind (by simp [he]) hs hp hr ht]; rfl,
    fun he hs hp hr ht hc => by
      rw [mmResult, makeMove_occupied h1 hfind (by simp [he]) hs hp hr ht hc]; rfl⟩

/-- Witness for C2 on the two-player game 300 before any move: the second
player moving first gets WRONG_TURN, and with an out-of-range coordinate the
same wrong-turn situation instead gets INVALID_LOCATION (precedence of check
5 over check 6). -/
theorem c2_amended_order_witness :
    mmResult gs2 300 Scenario.pB 0 0 = .ok WRONG_TURN
  ∧ mmResult gs2 300 Scenario.pB (-1) 0 = .ok INVALID_LOCATION := by
  have hfind : findGame gs2 300 = some Scenario.gAB := by
    rw [gs2_explicit]; exact Scenario.findGame_single _
  have he : Scenario.gAB.isEnded = false := by simp [Scenario.gAB, initGame]
  have hs : ¬(Scenario.gAB.players0 ≤ 0 ∨ Scenario.gAB.players1 ≤ 0) := by
    norm_num [Scenario.gAB, initGame, Scenario.pA, Scenario.pB]
  have hp : Scenario.pB = Scenario.gAB.players0 ∨ Scenario.pB = Scenario.gAB.players1 :=
    Or.inr (by simp [Scenario.gAB])
  constructor
  · exact (c2_amended_order.2.2 gs2 300 Scenario.gAB Scenario.pB 0 0 (by decide)
      hfind).2.2.2.2.1 he hs hp (by decide)
      (by norm_num [effectiveActive, Scenario.gAB, initGame, Scenario.pA, Scenario.pB])
  · exact (c2_amended_order.2.2 gs2 300 Scenario.gAB Scenario.pB (-1) 0 (by decide)
      hfind).2.2.2.1 he hs hp (by decide)

/-- C9 counterexample: game 0 (created with Date.now() = 1, Math.random() =
1/2) is in the registry, not ended and has both slots unassigned, yet
addPlayer returns GAME_DOESNT_EXIST instead of filling slot 0 and returning a
fresh identifier, because the gameId < 201 test fires first. -/
theorem c9_counterexample :
    findGame gsLow 0 = some initGame
  ∧ initGame.isEnded = false
  ∧ initGame.players0 = -1
  ∧ initGame.players1 = -1
  ∧ apResult gsLow 0 (1/2) = .ok GAME_DOESNT_EXIST
  ∧ addState gsLow 0 (1/2) = gsLow := by
  refine ⟨by rw [gsLow_explicit]; simp [findGame], rfl, rfl, rfl, ?_, ?_⟩
  · rw [apResult, addPlayer_low (by decide)]; rfl
  · rw [addState, addPlayer_low (by decide)]

/-- C9 as amended: on a game present in the registry under an identifier at
least 201, addPlayer checks ended before fullness (an ended game gets
GAME_ENDED even when both slots are filled), a full unended game gets
GAME_ONGOING, and otherwise the first unassigned slot (slot 0 before slot 1)
is filled with the fresh identifier gameId + rand, which is returned.  On a
registry-present game below identifier 201 the call instead returns
GAME_DOESNT_EXIST (see C10). -/
theorem c9_amended_addPlayer_order :
    ∀ (gs : Games) (gid : ℤ) (g : Game) (r : ℚ), 201 ≤ gid → findGame gs gid = some g →
      (g.isEnded = true → addPlayer gs gid r = .ok (GAME_ENDED, gs))
    ∧ (g.isEnded = false → 0 < g.players0 → 0 < g.players1 →
        addPlayer gs gid r = .ok (GAME_ONGOING, gs))
    ∧ (g.isEnded = false → g.players0 ≤ 0 →
        addPlayer gs gid r =
          .ok ((gid : ℚ) + r, putGame gs gid { g with players0 := (gid : ℚ) + r }))
    ∧ (g.isEnded = false → ¬ g.players0 ≤ 0 → g.players1 ≤ 0 →
        addPlayer gs gid r =
          .ok ((gid : ℚ) + r, putGame gs gid { g with players1 := (gid : ℚ) + r })) := by
  intro gs gid g r h201 hfind
  have h1 : ¬ gid < 201 := by omega
  refine ⟨fun he => addPlayer_ended h1 hfind he,
    fun he hp0 hp1 => addPlayer_full h1 hfind (by simp [he]) ⟨hp0, hp1⟩,
    fun he hp0 => addPlayer_fill0 h1 hfind (by simp [he]) (fun hc => by linarith [hc.1]) hp0,
    fun he hp0 hp1 => addPlayer_fill1 h1 hfind (by simp [he]) (fun hc => by linarith [hc.2]) hp0⟩

/-- Witness for C9 on the finished game 300, which is both ended and full: the
ended check wins and addPlayer returns GAME_ENDED, not GAME_ONGOING. -/
theorem c9_amended_addPlayer_order_witness :
    addPlayer gsW 300 (1/3) = .ok (GAME_ENDED, gsW)
  ∧ 0 < Scenario.gWin.players0
  ∧ 0 < Scenario.gWin.players1 := by
  refine ⟨(c9_amended_addPlayer_order gsW 300 Scenario.gWin (1/3) (by decide) ?_).1 ?_, ?_, ?_⟩
  · rw [gsW_explicit]; exact Scenario.findGame_single _
  · simp [Scenario.gWin, Scenario.gM4, Scenario.gM3, Scenario.gM2, Scenario.gM1,
      Scenario.gAB, initGame]
  · norm_num [Scenario.gWin, Scenario.gM4, Scenario.gM3, Scenario.gM2, Scenario.gM1,
      Scenario.gAB, initGame, Scenario.pA]
  · norm_num [Scenario.gWin, Scenario.gM4, Scenario.gM3, Scenario.gM2, Scenario.gM1,
      Scenario.gAB, initGame, Scenario.pB]

/-- C7 counterexample: with the same time and random inputs as the run that
created game 300, createGame returns 300 again even though a game with
identifier 300 exists (it is the finished game of the concrete run, which the
call replaces with a fresh one), so the returned identifier is not distinct
from every existing game identifier. -/
theorem c7_counterexample :
    (createGame gsW 600 (1/2)).1 = 300
  ∧ findGame gsW 300 = some Scenario.gWin
  ∧ findGame (createGame gsW 600 (1/2)).2 300 = some initGame := by
  have hf : (⌊((600:ℤ):ℚ) * (1/2)⌋ : ℤ) = 300 := by norm_num
  refine ⟨hf, by rw [gsW_explicit]; exact Scenario.findGame_single _, ?_⟩
  show findGame (putGame gsW ⌊((600:ℤ):ℚ) * (1/2)⌋ initGame) 300 = some initGame
  rw [hf, findGame_putGame, if_pos rfl]

/-- C7 as amended: createGame never fails; for every registry and all
time/random inputs it installs a fresh game (empty board, both slots
unassigned, activePlayer unset, not ended) under the identifier
floor(now * rand) and returns that identifier, leaving every other identifier
untouched.  The identifier is not guaranteed distinct from existing game
identifiers (a collision silently replaces the stored game) nor from the
player-identifier range. -/
theorem c7_amended_createGame :
    ∀ (gs : Games) (now : ℤ) (rand : ℚ),
      (createGame gs now rand).1 = ⌊(now : ℚ) * rand⌋
    ∧ findGame (createGame gs now rand).2 (createGame gs now rand).1 = some initGame
    ∧ initGame.isEnded = false ∧ initGame.players0 = -1 ∧ initGame.players1 = -1
    ∧ initGame.activePlayer = 0 ∧ (∀ i j : Fin 3, initGame.board i j = none)
    ∧ (∀ gid' : ℤ, gid' ≠ ⌊(now : ℚ) * rand⌋ →
        findGame (createGame gs now rand).2 gid' = findGame gs gid') := by
  intro gs now rand
  refine ⟨rfl, ?_, rfl, rfl, rfl, rfl, fun i j => rfl, fun gid' hne => ?_⟩
  · show findGame (putGame gs ⌊(now : ℚ) * rand⌋ initGame) ⌊(now : ℚ) * rand⌋ = some initGame
    rw [findGame_putGame, if_pos rfl]
  · show findGame (putGame gs ⌊(now : ℚ) * rand⌋ initGame) gid' = findGame gs gid'
    rw [findGame_putGame, if_neg hne]

/-- Witness for C7 at concrete inputs: creating on the empty registry with
Date.now() = 600 and Math.random() = 1/2 returns floor(300) and leaves the
unrelated identifier 5 unbound. -/
theorem c7_amended_createGame_witness :
    (createGame [] 600 (1/2)).1 = ⌊((600:ℤ) : ℚ) * (1/2)⌋
  ∧ findGame (createGame [] 600 (1/2)).2 5 = findGame [] 5 := by
  refine ⟨(c7_amended_createGame [] 600 (1/2)).1,
    (c7_amended_createGame [] 600 (1/2)).2.2.2.2.2.2.2 5 ?_⟩
  norm_num

/-- C8 counterexample: with both Math.random() draws equal to 0, the first
player of fresh game 300 receives identifier 300 + 0 = 300, which is exactly
the game identifier, and the second player receives the same value 300, so the
two player identifiers are neither mutually distinct nor outside the
game-identifier domain. -/
theorem c8_counterexample :
    findGame gs1 300 = some initGame
  ∧ apResult gs1 300 0 = .ok ((300 : ℤ) : ℚ)
  ∧ apResult (addState gs1 300 0) 300 0 = .ok ((300 : ℤ) : ℚ) := by
  have hfind : findGame gs1 300 = some initGame := by
    rw [gs1_explicit]; simp [findGame]
  have h1 : ¬ (300:ℤ) < 201 := by decide
  have ha : addPlayer gs1 300 0 =
      .ok (((300:ℤ) : ℚ) + 0, putGame gs1 300 { initGame with players0 := ((300:ℤ) : ℚ) + 0 }) :=
    addPlayer_fill0 h1 hfind (by simp [initGame]) (by norm_num [initGame]) (by norm_num [initGame])
  refine ⟨hfind, ?_, ?_⟩
  · rw [apResult, ha]
    show Except.ok (((300:ℤ) : ℚ) + 0) = _
    norm_num
  · have hstate : addState gs1 300 0 =
        putGame gs1 300 { initGame with players0 := ((300:ℤ) : ℚ) + 0 } := by
      rw [addState, ha]
    have hfind2 : findGame (addState gs1 300 0) 300 =
        some { initGame with players0 := ((300:ℤ) : ℚ) + 0 } := by
      rw [hstate, findGame_putGame, if_pos rfl]
    have hb : addPlayer (addState gs1 300 0) 300 0 =
        .ok (((300:ℤ) : ℚ) + 0, putGame (addState gs1 300 0) 300
          { { initGame with players0 := ((300:ℤ) : ℚ) + 0 } with
              players1 := ((300:ℤ) : ℚ) + 0 }) :=
      addPlayer_fill1 h1 hfind2 (by simp [initGame]) (by norm_num [initGame])
        (by norm_num [initGame])
    rw [apResult, hb]
    show Except.ok (((300:ℤ) : ℚ) + 0) = _
    norm_num

/-- C8 as amended: on a fresh game (both slots unassigned) with identifier at
least 201, the two addPlayer calls return gameId + r1 and gameId + r2 where r1
and r2 are the two random draws in [0,1).  The two identifiers are distinct if
(and only if) the draws differ, and when a draw is nonzero the resulting
identifier is not an integer, hence distinct from every game identifier; with
a zero or repeated draw the distinctness claimed for all random inputs fails
(see the counterexample). -/
theorem c8_amended_player_ids :
    ∀ (gs : Games) (gid : ℤ) (g : Game) (r1 r2 : ℚ),
      201 ≤ gid → findGame gs gid = some g → g.isEnded = false →
      g.players0 = -1 → g.players1 = -1 →
      0 < r1 → r1 < 1 → 0 < r2 → r2 < 1 →
      (addPlayer gs gid r1 =
        .ok ((gid : ℚ) + r1, putGame gs gid { g with players0 := (gid : ℚ) + r1 }))
    ∧ (addPlayer (putGame gs gid { g with players0 := (gid : ℚ) + r1 }) gid r2 =
        .ok ((gid : ℚ) + r2,
          putGame (putGame gs gid { g with players0 := (gid : ℚ) + r1 }) gid
            { { g with players0 := (gid : ℚ) + r1 } with players1 := (gid : ℚ) + r2 }))
    ∧ (r1 ≠ r2 → (gid : ℚ) + r1 ≠ (gid : ℚ) + r2)
    ∧ (∀ k : ℤ, (gid : ℚ) + r1 ≠ (k : ℚ))
    ∧ (∀ k : ℤ, (gid : ℚ) + r2 ≠ (k : ℚ)) := by
  intro gs gid g r1 r2 h201 hfind hend hp0 hp1 hr1 hr1' hr2 hr2'
  have h1 : ¬ gid < 201 := by omega
  have hgq : (201 : ℚ) ≤ (gid : ℚ) := by exact_mod_cast h201
  have noInt : ∀ r : ℚ, 0 < r → r < 1 → ∀ k : ℤ, (gid : ℚ) + r ≠ (k : ℚ) := by
    intro r hr hr' k hk
    have he : r = ((k - gid : ℤ) : ℚ) := by push_cast; linarith
    have h2 : (0:ℚ) < ((k - gid : ℤ) : ℚ) := he ▸ hr
    have h3 : ((k - gid : ℤ) : ℚ) < 1 := he ▸ hr'
    have h4 : (0:ℤ) < k - gid := by exact_mod_cast h2
    have h5 : (k - gid : ℤ) < 1 := by exact_mod_cast h3
    omega
  refine ⟨?_, ?_, fun hne he => hne (by linarith [add_left_cancel he]), noInt r1 hr1 hr1',
    noInt r2 hr2 hr2'⟩
  · exact addPlayer_fill0 h1 hfind (by simp [hend]) (by rw [hp0]; norm_num) (by rw [hp0]; norm_num)
  · have hfind2 : findGame (putGame gs gid { g with players0 := (gid : ℚ) + r1 }) gid =
        some { g with players0 := (gid : ℚ) + r1 } := by
      rw [findGame_putGame, if_pos rfl]
    refine addPlayer_fill1 h1 hfind2 (by simp [hend]) ?_ ?_
    · intro hc
      have := hc.2
      simp at this
      rw [hp1] at this
      linarith
    · simp
      linarith

/-- Witness for C8 with the draws 1/4 and 1/2 on fresh game 300: the two
player identifiers differ and the first is not equal to the integer 300. -/
theorem c8_amended_player_ids_witness :
    (((300:ℤ) : ℚ) + 1/4 ≠ ((300:ℤ) : ℚ) + 1/2)
  ∧ (((300:ℤ) : ℚ) + 1/4 ≠ (((300:ℤ)) : ℚ)) := by
  have hfind : findGame gs1 300 = some initGame := by
    rw [gs1_explicit]; simp [findGame]
  have h := c8_amended_player_ids gs1 300 initGame (1/4) (1/2) (by decide) hfind
    rfl rfl rfl (by norm_num) (by norm_num) (by norm_num) (by norm_num)
  exact ⟨h.2.2.1 (by norm_num), h.2.2.2.1 300⟩

/-- C5 counterexample: after the concrete run ends game 300, a createGame call
with the same time and random inputs reuses identifier 300 and replaces the
ended game with a fresh unended one; the next addPlayer on 300 then returns a
player identifier instead of GAME_ENDED, so an operation other than the ended
game itself has reset the ended flag observable under that identifier. -/
theorem c5_counterexample :
    endedAt gsW 300 = true
  ∧ Reachable (createGame gsW 600 (1/2)).2
  ∧ endedAt (createGame gsW 600 (1/2)).2 300 = false
  ∧ apResult (createGame gsW 600 (1/2)).2 300 (1/4) = .ok (((300:ℤ) : ℚ) + 1/4)
  ∧ ((300:ℤ) : ℚ) + 1/4 ≠ GAME_ENDED := by
  have hf : (⌊((600:ℤ):ℚ) * (1/2)⌋ : ℤ) = 300 := by norm_num
  have hre : (createGame gsW 600 (1/2)).2 = [(300, initGame)] := by
    rw [gsW_explicit]
    show putGame [(300, Scenario.gWin)] ⌊((600:ℤ):ℚ) * (1/2)⌋ initGame = _
    rw [hf]
    simp [putGame]
  refine ⟨?_, ?_, ?_, ?_, ?_⟩
  · rw [endedAt, gameAt, gsW_explicit]
    simp [findGame, Scenario.gWin]
  · exact Reachable.create 600 (1/2) reachable_gsW (by norm_num) (by norm_num) (by norm_num)
  · rw [endedAt, gameAt, hre]
    simp [findGame, initGame]
  · have hfind : findGame (createGame gsW 600 (1/2)).2 300 = some initGame := by
      rw [hre]; simp [findGame]
    rw [apResult, addPlayer_fill0 (by decide) hfind (by simp [initGame])
      (by norm_num [initGame]) (by norm_num [initGame])]
    rfl
  · norm_num [GAME_ENDED]

/-- C5 as amended: in every reachable registry, a game whose ended flag is set
absorbs addPlayer and makeMove (both return GAME_ENDED and leave the whole
registry unchanged), and no addPlayer or makeMove call, on any game, alters
the ended game entry in any way; only createGame can displace it, by reusing
its identifier (see the counterexample). -/
theorem c5_amended_ended_absorbing :
    ∀ (gs : Games) (gid : ℤ) (g : Game), Reachable gs →
      findGame gs gid = some g → g.isEnded = true →
      (∀ r : ℚ, addPlayer gs gid r = .ok (GAME_ENDED, gs))
    ∧ (∀ (pid : ℚ) (x y : ℤ), makeMove gs gid pid x y = .ok (GAME_ENDED, gs))
    ∧ (∀ (gid' : ℤ) (r : ℚ), findGame (addState gs gid' r) gid = some g)
    ∧ (∀ (gid' : ℤ) (pid : ℚ) (x y : ℤ), findGame (moveState gs gid' pid x y) gid = some g) := by
  intro gs gid g hreach hfind hend
  have h201 : 201 ≤ gid := (reachable_regInv hreach (gid, g) (find_mem hfind)).1 hend
  have h1 : ¬ gid < 201 := by omega
  refine ⟨fun r => addPlayer_ended h1 hfind hend,
    fun pid x y => makeMove_ended h1 hfind hend, fun gid' r => ?_, fun gid' pid x y => ?_⟩
  · by_cases hgg : gid = gid'
    · subst hgg
      rw [addState, addPlayer_ended h1 hfind hend]
      exact hfind
    · rw [addState_find_other hgg]
      exact hfind
  · by_cases hgg : gid = gid'
    · subst hgg
      rw [moveState, makeMove_ended h1 hfind hend]
      exact hfind
    · rw [moveState_find_other hgg]
      exact hfind

/-- Witness for C5 on the finished game 300 of the concrete run: addPlayer and
makeMove are absorbed, and an addPlayer on the unrelated identifier 777 leaves
the ended entry intact. -/
theorem c5_amended_ended_absorbing_witness :
    addPlayer gsW 300 (1/3) = .ok (GAME_ENDED, gsW)
  ∧ makeMove gsW 300 Scenario.pA 2 2 = .ok (GAME_ENDED, gsW)
  ∧ findGame (addState gsW 777 (1/3)) 300 = some Scenario.gWin := by
  have h := c5_amended_ended_absorbing gsW 300 Scenario.gWin reachable_gsW
    (by rw [gsW_explicit]; exact Scenario.findGame_single _)
    (by simp [Scenario.gWin])
  exact ⟨h.1 (1/3), h.2.1 Scenario.pA 2 2, h.2.2.1 777 (1/3)⟩

/-- C6 counterexample: on the freshly started game 300 (activePlayer still
unset, sentinel 0) a move by the second player returns the error WRONG_TURN
yet mutates the game: activePlayer changes from 0 to the first player, so an
error-returning call does not leave the engine state unchanged. -/
theorem c6_counterexample :
    mmResult gs2 300 Scenario.pB 0 0 = .ok WRONG_TURN
  ∧ activePlayerAt gs2 300 = 0
  ∧ activePlayerAt (moveState gs2 300 Scenario.pB 0 0) 300 = Scenario.pA
  ∧ Scenario.pA ≠ 0 := by
  have hfind : findGame gs2 300 = some Scenario.gAB := by
    rw [gs2_explicit]; exact Scenario.findGame_single _
  have hwt : makeMove gs2 300 Scenario.pB 0 0 =
      .ok (WRONG_TURN, putGame gs2 300
        { Scenario.gAB with activePlayer := effectiveActive Scenario.gAB }) :=
    makeMove_wrongTurn (by decide) hfind (by simp [Scenario.gAB, initGame])
      (by norm_num [Scenario.gAB, initGame, Scenario.pA, Scenario.pB])
      (Or.inr (by simp [Scenario.gAB]))
      (by decide)
      (by norm_num [effectiveActive, Scenario.gAB, initGame, Scenario.pA, Scenario.pB])
  refine ⟨by rw [mmResult, hwt]; rfl, ?_, ?_, ?_⟩
  · rw [activePlayerAt, gameAt, gs2_explicit]
    simp [findGame, Scenario.gAB, initGame]
  · rw [activePlayerAt, gameAt, moveState, hwt]
    show ((findGame (putGame gs2 300
      { Scenario.gAB with activePlayer := effectiveActive Scenario.gAB }) 300).getD
        initGame).activePlayer = Scenario.pA
    rw [findGame_putGame, if_pos rfl]
    norm_num [effectiveActive, Scenario.gAB, initGame, Scenario.pA, Scenario.pB]
  · norm_num [Scenario.pA]

/-- C6 as amended: in every reachable registry, every addPlayer call that
returns an error code leaves the registry unchanged, and every makeMove call
that returns an error code leaves the registry unchanged except in one case:
a makeMove that reaches the turn check while activePlayer is still the unset
sentinel 0 records activePlayer := players0 even when it then fails, so the
registry may change to exactly that one-field update of the addressed game. -/
theorem c6_amended_error_state :
    ∀ gs : Games, Reachable gs →
      (∀ (gid : ℤ) (r res : ℚ) (gs' : Games), 0 ≤ r →
        addPlayer gs gid r = .ok (res, gs') → res < 0 → gs' = gs)
    ∧ (∀ (gid : ℤ) (pid res : ℚ) (x y : ℤ) (gs' : Games),
        makeMove gs gid pid x y = .ok (res, gs') →
        (res = GAME_DOESNT_EXIST ∨ res = GAME_NOT_STARTED ∨ res = GAME_ENDED ∨
         res = PLAYER_DOESNT_EXIST ∨ res = WRONG_TURN ∨ res = INVALID_LOCATION) →
        gs' = gs ∨ ∃ g : Game, findGame gs gid = some g ∧ g.activePlayer = 0 ∧
          gs' = putGame gs gid { g with activePlayer := g.players0 }) := by
  intro gs hreach
  constructor
  · intro gid r res gs' hr0 heq hneg
    by_cases h1 : gid < 201
    · rw [addPlayer_low h1] at heq
      simp at heq
      exact heq.2.symm
    · cases hf : findGame gs gid with
      | none => rw [addPlayer_absent h1 hf] at heq; simp at heq
      | some g =>
        by_cases h2 : g.isEnded = true
        · rw [addPlayer_ended h1 hf h2] at heq; simp at heq; exact heq.2.symm
        · by_cases h3 : 0 < g.players0 ∧ 0 < g.players1
          · rw [addPlayer_full h1 hf h2 h3] at heq; simp at heq; exact heq.2.symm
          · by_cases h4 : g.players0 ≤ 0
            · rw [addPlayer_fill0 h1 hf h2 h3 h4] at heq
              simp at heq
              exfalso
              have hc := cast201 h1 hr0
              rw [heq.1] at hc
              linarith
            · rw [addPlayer_fill1 h1 hf h2 h3 h4] at heq
              simp at heq
              exfalso
              have hc := cast201 h1 hr0
              rw [heq.1] at hc
              linarith
  · intro gid pid res x y gs' heq hres
    by_cases h1 : gid < 201
    · rw [makeMove_low h1] at heq; simp at heq; left; exact heq.2.symm
    · cases hf : findGame gs gid with
      | none => rw [makeMove_absent h1 hf] at heq; simp at heq
      | some g =>
        by_cases h2 : g.isEnded = true
        · rw [makeMove_ended h1 hf h2] at heq; simp at heq; left; exact heq.2.symm
        · by_cases h3 : g.players0 ≤ 0 ∨ g.players1 ≤ 0
          · rw [makeMove_notStarted h1 hf h2 h3] at heq; simp at heq; left; exact heq.2.symm
          · by_cases h4 : pid = g.players0 ∨ pid = g.players1
            · by_cases h5 : x < 0 ∨ 2 < x ∨ y < 0 ∨ 2 < y
              · rw [makeMove_range h1 hf h2 h3 h4 h5] at heq
                simp at heq
                left
                exact heq.2.symm
              · have hgood := reachable_regInv hreach (gid, g) (find_mem hf)
                have h3n := h3
                push_neg at h3n
                have hp0 : 201 ≤ g.players0 := by
                  rcases hgood.2.1 with hc | hc
                  · exfalso; rw [hc] at h3n; linarith [h3n.1]
                  · exact hc
                have hp1 : 201 ≤ g.players1 := by
                  rcases hgood.2.2.1 with hc | hc
                  · exfalso; rw [hc] at h3n; linarith [h3n.2]
                  · exact hc
                have hlazy : ∀ gsL : Games,
                    gsL = putGame gs gid { g with activePlayer := effectiveActive g } →
                    gsL = gs ∨ ∃ g2 : Game, findGame gs gid = some g2 ∧ g2.activePlayer = 0 ∧
                      gsL = putGame gs gid { g2 with activePlayer := g2.players0 } := by
                  intro gsL hgsL
                  by_cases ha : g.activePlayer = 0
                  · right
                    exact ⟨g, hf, ha, by rw [hgsL, effectiveActive, if_pos ha]⟩
                  · left
                    rw [hgsL, effectiveActive, if_neg ha]
                    exact putGame_self hf
                by_cases h6 : pid = effectiveActive g
                · by_cases h7 : (g.board (fin3 y) (fin3 x)).isSome = true
                  · rw [makeMove_occupied h1 hf h2 h3 h4 h5 h6 h7] at heq
                    simp at heq
                    rcases hlazy gs' heq.2.symm with hL | ⟨g2, hg2, ha2, hs2⟩
                    · left; exact hL
                    · right; exact ⟨g2, hf ▸ hg2, ha2, hs2⟩
                  · rw [makeMove_success h1 hf h2 h3 h4 h5 h6 h7] at heq
                    have hpid : 201 ≤ pid := by rcases h4 with hc | hc <;> rw [hc] <;> assumption
                    have hother : 201 ≤ otherPlayer g pid := by
                      rw [otherPlayer]
                      by_cases hc : g.players0 = pid <;> simp [hc] <;> assumption
                    exfalso
                    by_cases h8 : isPlayerWin pid (updateBoard g.board (fin3 y) (fin3 x) pid) = true
                    · rw [if_pos h8] at heq
                      simp at heq
                      rw [heq.1] at hpid
                      rcases hres with h | h | h | h | h | h <;> rw [h] at hpid <;>
                        norm_num [GAME_DOESNT_EXIST, GAME_NOT_STARTED, GAME_ENDED,
                          PLAYER_DOESNT_EXIST, WRONG_TURN, INVALID_LOCATION] at hpid
                    · rw [if_neg h8] at heq
                      by_cases h9 : isDraw (updateBoard g.board (fin3 y) (fin3 x) pid) = true
                      · rw [if_pos h9] at heq
                        simp at heq
                        rw [heq.1] at hother
                        rcases hres with h | h | h | h | h | h <;> rw [h] at hother <;>
                          norm_num [GAME_DOESNT_EXIST, GAME_NOT_STARTED, GAME_ENDED,
                            PLAYER_DOESNT_EXIST, WRONG_TURN, INVALID_LOCATION] at hother
                      · rw [if_neg h9] at heq
                        simp at heq
                        have hg5 := heq.1
                        rcases hres with h | h | h | h | h | h <;> rw [h] at hg5 <;>
                          norm_num [GAME_ONGOING, GAME_DOESNT_EXIST, GAME_NOT_STARTED,
                            GAME_ENDED, PLAYER_DOESNT_EXIST, WRONG_TURN,
                            INVALID_LOCATION] at hg5
                · rw [makeMove_wrongTurn h1 hf h2 h3 h4 h5 h6] at heq
                  simp at heq
                  rcases hlazy gs' heq.2.symm with hL | ⟨g2, hg2, ha2, hs2⟩
                  · left; exact hL
                  · right; exact ⟨g2, hf ▸ hg2, ha2, hs2⟩
            · rw [makeMove_noPlayer h1 hf h2 h3 h4] at heq; simp at heq; left; exact heq.2.symm

/-- Witness for C6: the WRONG_TURN move of the counterexample satisfies the
amended description, landing in the one permitted mutation case. -/
theorem c6_amended_error_state_witness :
    moveState gs2 300 Scenario.pB 0 0 = gs2
  ∨ ∃ g : Game, findGame gs2 300 = some g ∧ g.activePlayer = 0 ∧
      moveState gs2 300 Scenario.pB 0 0 = putGame gs2 300
        { g with activePlayer := g.players0 } := by
  have hfind : findGame gs2 300 = some Scenario.gAB := by
    rw [gs2_explicit]; exact Scenario.findGame_single _
  have hwt : makeMove gs2 300 Scenario.pB 0 0 =
      .ok (WRONG_TURN, putGame gs2 300
        { Scenario.gAB with activePlayer := effectiveActive Scenario.gAB }) :=
    makeMove_wrongTurn (by decide) hfind (by simp [Scenario.gAB, initGame])
      (by norm_num [Scenario.gAB, initGame, Scenario.pA, Scenario.pB])
      (Or.inr (by simp [Scenario.gAB]))
      (by decide)
      (by norm_num [effectiveActive, Scenario.gAB, initGame, Scenario.pA, Scenario.pB])
  have hms : makeMove gs2 300 Scenario.pB 0 0 =
      .ok (WRONG_TURN, moveState gs2 300 Scenario.pB 0 0) := by
    rw [moveState, hwt]
  exact (c6_amended_error_state gs2 reachable_gs2).2 300 Scenario.pB WRONG_TURN 0 0
    (moveState gs2 300 Scenario.pB 0 0) hms
    (Or.inr (Or.inr (Or.inr (Or.inr (Or.inl rfl)))))

/-- C3: a successful move by a seated player pid ends the game with result pid
exactly when the resulting board gives pid all three cells of one of the 8
lines, and (second conjunct, for any identifier q above the counter range,
which covers every player identifier since those are at least 201) the
source win check with its counter-filled matrix agrees exactly with the
specification win condition, so a line containing an empty cell never counts:
the empty-cell counters 1..9 can never equal a player identifier.  The
hypotheses are precisely the conditions under which makeMove accepts the
move in a reachable registry. -/
theorem c3_win_iff_line :
    ∀ (gs : Games) (gid : ℤ) (g : Game) (pid q : ℚ) (x y : ℤ),
      Reachable gs → findGame gs gid = some g → 201 ≤ gid →
      g.isEnded = false → ¬(g.players0 ≤ 0 ∨ g.players1 ≤ 0) →
      (pid = g.players0 ∨ pid = g.players1) →
      ¬(x < 0 ∨ 2 < x ∨ y < 0 ∨ 2 < y) →
      pid = effectiveActive g →
      (g.board (fin3 y) (fin3 x)).isSome = false →
      9 < q →
      ((mmResult gs gid pid x y = .ok pid
         ∧ endedAt (moveState gs gid pid x y) gid = true)
        ↔ specWin pid (updateBoard g.board (fin3 y) (fin3 x) pid))
    ∧ (isPlayerWin q (updateBoard g.board (fin3 y) (fin3 x) pid) = true
        ↔ specWin q (updateBoard g.board (fin3 y) (fin3 x) pid)) := by
  intro gs gid g pid q x y hreach hfind h201 hend h3 h4 h5 h6 h7 hq
  have h1 : ¬ gid < 201 := by omega
  have h2 : ¬ g.isEnded = true := by simp [hend]
  have h7' : ¬ (g.board (fin3 y) (fin3 x)).isSome = true := by simp [h7]
  have hgood := reachable_regInv hreach (gid, g) (find_mem hfind)
  have h3n := h3
  push_neg at h3n
  have hp0 : 201 ≤ g.players0 := by
    rcases hgood.2.1 with hc | hc
    · exfalso; rw [hc] at h3n; linarith [h3n.1]
    · exact hc
  have hp1 : 201 ≤ g.players1 := by
    rcases hgood.2.2.1 with hc | hc
    · exfalso; rw [hc] at h3n; linarith [h3n.2]
    · exact hc
  have hpid : 201 ≤ pid := by rcases h4 with hc | hc <;> rw [hc] <;> assumption
  have hpid9 : (9:ℚ) < pid := by linarith
  have hmm := makeMove_success h1 hfind h2 h3 h4 h5 h6 h7'
  refine ⟨?_, isPlayerWin_iff hq _⟩
  by_cases h8 : isPlayerWin pid (updateBoard g.board (fin3 y) (fin3 x) pid) = true
  · rw [if_pos h8] at hmm
    have hms : moveState gs gid pid x y = putGame gs gid
        { g with board := updateBoard g.board (fin3 y) (fin3 x) pid,
                 activePlayer := otherPlayer g pid, isEnded := true } := by
      rw [moveState, hmm]
    constructor
    · intro _
      exact (isPlayerWin_iff hpid9 _).mp h8
    · intro _
      refine ⟨by rw [mmResult, hmm]; rfl, ?_⟩
      rw [endedAt, gameAt, hms, findGame_putGame, if_pos rfl]
      rfl
  · rw [if_neg h8] at hmm
    have hnw : ¬ specWin pid (updateBoard g.board (fin3 y) (fin3 x) pid) :=
      fun hsw => h8 ((isPlayerWin_iff hpid9 _).mpr hsw)
    constructor
    · rintro ⟨hres, -⟩
      exfalso
      by_cases h9 : isDraw (updateBoard g.board (fin3 y) (fin3 x) pid) = true
      · rw [if_pos h9] at hmm
        rw [mmResult, hmm] at hres
        simp [Except.map] at hres
        by_cases hpp : g.players0 = g.players1
        · apply hnw
          have hdr := (isDraw_iff _).mp h9
          have hpidp0 : pid = g.players0 := by
            rcases h4 with hc | hc
            · exact hc
            · rw [hc, hpp]
          have hall : ∀ i j : Fin 3,
              updateBoard g.board (fin3 y) (fin3 x) pid i j = some pid := by
            intro i j
            rcases em (i = fin3 y ∧ j = fin3 x) with hij | hij
            · simp only [updateBoard]
              rw [if_pos hij]
            · have hne : updateBoard g.board (fin3 y) (fin3 x) pid i j = g.board i j := by
                simp only [updateBoard]
                rw [if_neg hij]
              rw [hne]
              rcases hgood.2.2.2 i j with hc | hc | hc
              · exfalso
                have hd := hdr i j
                rw [hne, hc] at hd
                simp at hd
              · rw [hc.1, ← hpidp0]
              · rw [hc.1, ← hpp, ← hpidp0]
          exact Or.inl ⟨hall 0 0, hall 0 1, hall 0 2⟩
        · rcases h4 with hc | hc
          · rw [otherPlayer, if_pos hc.symm] at hres
            exact hpp (hc.symm.trans hres.symm)
          · rw [otherPlayer, if_neg (fun hcc => hpp (hcc.trans hc))] at hres
            exact hpp (hres.trans hc)
      · rw [if_neg h9] at hmm
        rw [mmResult, hmm] at hres
        simp [Except.map] at hres
        rw [← hres] at hpid
        norm_num [GAME_ONGOING] at hpid
    · intro hsw
      exact absurd ((isPlayerWin_iff hpid9 _).mpr hsw) h8

/-- Witness for C3 at the first move of the concrete game 300: player pA plays
the empty corner, no line is complete, and both equivalences hold (q
instantiated to 1000). -/
theorem c3_win_iff_line_witness :
    ((mmResult gs2 300 Scenario.pA 0 0 = .ok Scenario.pA
       ∧ endedAt (moveState gs2 300 Scenario.pA 0 0) 300 = true)
      ↔ specWin Scenario.pA (updateBoard Scenario.gAB.board (fin3 0) (fin3 0) Scenario.pA))
  ∧ (isPlayerWin 1000 (updateBoard Scenario.gAB.board (fin3 0) (fin3 0) Scenario.pA) = true
      ↔ specWin 1000 (updateBoard Scenario.gAB.board (fin3 0) (fin3 0) Scenario.pA)) :=
  c3_win_iff_line gs2 300 Scenario.gAB Scenario.pA 1000 0 0 reachable_gs2
    (by rw [gs2_explicit]; exact Scenario.findGame_single _)
    (by decide)
    (by simp [Scenario.gAB, initGame])
    (by norm_num [Scenario.gAB, initGame, Scenario.pA, Scenario.pB])
    (Or.inl (by simp [Scenario.gAB]))
    (by decide)
    (by norm_num [effectiveActive, Scenario.gAB, initGame, Scenario.pA, Scenario.pB])
    (by simp [Scenario.gAB, initGame])
    (by norm_num)

/-- C4: a successful move that completes no line ends the game exactly when
all nine cells of the resulting board are occupied; in that case the returned
value is the other seated player, the one then held in activePlayer (the flip
of the moving player between the two slots); otherwise the game does not end
and GAME_ONGOING is returned.  The hypotheses are precisely the conditions
under which makeMove accepts the move in a reachable registry, plus the
absence of a completed line. -/
theorem c4_draw_characterization :
    ∀ (gs : Games) (gid : ℤ) (g : Game) (pid : ℚ) (x y : ℤ),
      Reachable gs → findGame gs gid = some g → 201 ≤ gid →
      g.isEnded = false → ¬(g.players0 ≤ 0 ∨ g.players1 ≤ 0) →
      (pid = g.players0 ∨ pid = g.players1) →
      ¬(x < 0 ∨ 2 < x ∨ y < 0 ∨ 2 < y) →
      pid = effectiveActive g →
      (g.board (fin3 y) (fin3 x)).isSome = false →
      ¬ specWin pid (updateBoard g.board (fin3 y) (fin3 x) pid) →
      (endedAt (moveState gs gid pid x y) gid = true
        ↔ ∀ i j : Fin 3, (updateBoard g.board (fin3 y) (fin3 x) pid i j).isSome = true)
    ∧ ((∀ i j : Fin 3, (updateBoard g.board (fin3 y) (fin3 x) pid i j).isSome = true) →
          mmResult gs gid pid x y = .ok (otherPlayer g pid)
        ∧ activePlayerAt (moveState gs gid pid x y) gid = otherPlayer g pid
        ∧ otherPlayer g pid = (if g.players0 = pid then g.players1 else g.players0))
    ∧ ((¬ ∀ i j : Fin 3, (updateBoard g.board (fin3 y) (fin3 x) pid i j).isSome = true) →
          mmResult gs gid pid x y = .ok GAME_ONGOING
        ∧ endedAt (moveState gs gid pid x y) gid = false) := by
  intro gs gid g pid x y hreach hfind h201 hend h3 h4 h5 h6 h7 hnw
  have h1 : ¬ gid < 201 := by omega
  have h2 : ¬ g.isEnded = true := by simp [hend]
  have h7' : ¬ (g.board (fin3 y) (fin3 x)).isSome = true := by simp [h7]
  have hgood := reachable_regInv hreach (gid, g) (find_mem hfind)
  have h3n := h3
  push_neg at h3n
  have hp0 : 201 ≤ g.players0 := by
    rcases hgood.2.1 with hc | hc
    · exfalso; rw [hc] at h3n; linarith [h3n.1]
    · exact hc
  have hp1 : 201 ≤ g.players1 := by
    rcases hgood.2.2.1 with hc | hc
    · exfalso; rw [hc] at h3n; linarith [h3n.2]
    · exact hc
  have hpid : 201 ≤ pid := by rcases h4 with hc | hc <;> rw [hc] <;> assumption
  have hpid9 : (9:ℚ) < pid := by linarith
  have h8 : ¬ isPlayerWin pid (updateBoard g.board (fin3 y) (fin3 x) pid) = true :=
    fun hw => hnw ((isPlayerWin_iff hpid9 _).mp hw)
  have hmm := makeMove_success h1 hfind h2 h3 h4 h5 h6 h7'
  rw [if_neg h8] at hmm
  by_cases h9 : ∀ i j : Fin 3, (updateBoard g.board (fin3 y) (fin3 x) pid i j).isSome = true
  · rw [if_pos ((isDraw_iff _).mpr h9)] at hmm
    have hms : moveState gs gid pid x y = putGame gs gid
        { g with board := updateBoard g.board (fin3 y) (fin3 x) pid,
                 activePlayer := otherPlayer g pid, isEnded := true } := by
      rw [moveState, hmm]
    refine ⟨⟨fun _ => h9, fun _ => ?_⟩, fun _ => ⟨?_, ?_, rfl⟩, fun hcon => absurd h9 hcon⟩
    · rw [endedAt, gameAt, hms, findGame_putGame, if_pos rfl]
      rfl
    · rw [mmResult, hmm]
      rfl
    · rw [activePlayerAt, gameAt, hms, findGame_putGame, if_pos rfl]
      rfl
  · rw [if_neg (fun hd => h9 ((isDraw_iff _).mp hd))] at hmm
    have hms : moveState gs gid pid x y = putGame gs gid
        { g with board := updateBoard g.board (fin3 y) (fin3 x) pid,
                 activePlayer := otherPlayer g pid } := by
      rw [moveState, hmm]
    refine ⟨⟨fun hcon => ?_, fun hfull => absurd hfull h9⟩,
      fun hfull => absurd hfull h9, fun _ => ⟨?_, ?_⟩⟩
    · exfalso
      rw [endedAt, gameAt, hms, findGame_putGame, if_pos rfl] at hcon
      exact h2 hcon
    · rw [mmResult, hmm]
      rfl
    · rw [endedAt, gameAt, hms, findGame_putGame, if_pos rfl]
      exact hend

/-- Witness for C4 at the first move of the concrete game 300: no line is
complete, the board is not full, so the move returns GAME_ONGOING and the
game does not end. -/
theorem c4_draw_characterization_witness :
    (endedAt (moveState gs2 300 Scenario.pA 0 0) 300 = true
      ↔ ∀ i j : Fin 3,
          (updateBoard Scenario.gAB.board (fin3 0) (fin3 0) Scenario.pA i j).isSome = true)
  ∧ ((∀ i j : Fin 3,
        (updateBoard Scenario.gAB.board (fin3 0) (fin3 0) Scenario.pA i j).isSome = true) →
        mmResult gs2 300 Scenario.pA 0 0 = .ok (otherPlayer Scenario.gAB Scenario.pA)
      ∧ activePlayerAt (moveState gs2 300 Scenario.pA 0 0) 300 =
          otherPlayer Scenario.gAB Scenario.pA
      ∧ otherPlayer Scenario.gAB Scenario.pA =
          (if Scenario.gAB.players0 = Scenario.pA then Scenario.gAB.players1
           else Scenario.gAB.players0))
  ∧ ((¬ ∀ i j : Fin 3,
        (updateBoard Scenario.gAB.board (fin3 0) (fin3 0) Scenario.pA i j).isSome = true) →
        mmResult gs2 300 Scenario.pA 0 0 = .ok GAME_ONGOING
      ∧ endedAt (moveState gs2 300 Scenario.pA 0 0) 300 = false) :=
  c4_draw_characterization gs2 300 Scenario.gAB Scenario.pA 0 0 reachable_gs2
    (by rw [gs2_explicit]; exact Scenario.findGame_single _)
    (by decide)
    (by simp [Scenario.gAB, initGame])
    (by norm_num [Scenario.gAB, initGame, Scenario.pA, Scenario.pB])
    (Or.inl (by simp [Scenario.gAB]))
    (by decide)
    (by norm_num [effectiveActive, Scenario.gAB, initGame, Scenario.pA, Scenario.pB])
    (by simp [Scenario.gAB, initGame])
    (by simp [specWin, updateBoard, Scenario.gAB, initGame, Scenario.fin3_0,
      show ¬((0:Fin 3) = 1) from by decide, show ¬((0:Fin 3) = 2) from by decide,
      show ¬((1:Fin 3) = 0) from by decide, show ¬((1:Fin 3) = 2) from by decide,
      show ¬((2:Fin 3) = 0) from by decide, show ¬((2:Fin 3) = 1) from by decide])
